import Mathlib

/-
Verification of the deep-eval document pipeline.

Shallow embedding of the coordinate-normalization engine, the OCR JSON
sanitizer, the evaluation validator, the annotation summary layout and the
pipeline orchestrator of the repository (src/processing).  Python floats are
modelled as exact rationals, Python dicts as association lists, and the
regular-expression passes of the sanitizer as character-list functions.
Python character class \d is modelled as the ASCII digits 0-9 and \s as the
ASCII whitespace characters.
-/

namespace DeepEval

/-- Bounding box of four coordinates, mirroring the 4-element Python lists
[x1, y1, x2, y2] used throughout document_processor.py. -/
structure Box4 where
  x1 : ℚ
  y1 : ℚ
  x2 : ℚ
  y2 : ℚ
  deriving Repr, DecidableEq

/-- The PageMetadata dataclass (document_processor.py lines 151-166).
Pixel sizes and dpi are integers in the source; they are carried here as
rationals since they only enter rational arithmetic. -/
structure PageMetadata where
  page_number : ℤ
  original_width_pt : ℚ
  original_height_pt : ℚ
  was_converted : Bool
  scale : ℚ
  x_offset_pt : ℚ
  y_offset_pt : ℚ
  image_width_px : ℚ
  image_height_px : ℚ
  dpi : ℚ
  deriving Repr, DecidableEq

/-- Round half to even on rationals: the behaviour of the Python built-in
round at integer granularity (ties go to the even neighbour). -/
def roundHalfEven (q : ℚ) : ℤ :=
  let f : ℤ := ⌊q⌋
  if q - f < 1/2 then f
  else if 1/2 < q - f then f + 1
  else if f % 2 = 0 then f else f + 1

/-- Python round(x, 2): round to two decimal places, ties to even. -/
def pyRound2 (q : ℚ) : ℚ := (roundHalfEven (100 * q) : ℚ) / 100

/-- max(0.0, min(v, hi)) — the clamping used at
document_processor.py lines 364-368. -/
def clamp0 (v hi : ℚ) : ℚ := max 0 (min v hi)

/-- DocumentProcessor.normalized_to_pdf_coords
(document_processor.py lines 323-370). -/
def normalized_to_pdf_coords (normalized_coords : Box4)
    (page_metadata : PageMetadata) : Box4 :=
  -- Step 1: Convert normalized to A4 image pixels
  let x1_px := normalized_coords.x1 * page_metadata.image_width_px
  let y1_px := normalized_coords.y1 * page_metadata.image_height_px
  let x2_px := normalized_coords.x2 * page_metadata.image_width_px
  let y2_px := normalized_coords.y2 * page_metadata.image_height_px
  -- Step 2: Convert pixels to A4 points (72 DPI)
  let scale_px_to_pt := 72 / page_metadata.dpi
  let x1_a4_pt := x1_px * scale_px_to_pt
  let y1_a4_pt := y1_px * scale_px_to_pt
  let x2_a4_pt := x2_px * scale_px_to_pt
  let y2_a4_pt := y2_px * scale_px_to_pt
  -- Steps 3-4: remove the A4 padding offset and reverse the scale factor
  let x1_pt := if page_metadata.was_converted then
      (x1_a4_pt - page_metadata.x_offset_pt) / page_metadata.scale else x1_a4_pt
  let y1_pt := if page_metadata.was_converted then
      (y1_a4_pt - page_metadata.y_offset_pt) / page_metadata.scale else y1_a4_pt
  let x2_pt := if page_metadata.was_converted then
      (x2_a4_pt - page_metadata.x_offset_pt) / page_metadata.scale else x2_a4_pt
  let y2_pt := if page_metadata.was_converted then
      (y2_a4_pt - page_metadata.y_offset_pt) / page_metadata.scale else y2_a4_pt
  -- Clamp coordinates to page bounds, round to 2 decimals
  { x1 := pyRound2 (clamp0 x1_pt page_metadata.original_width_pt)
    y1 := pyRound2 (clamp0 y1_pt page_metadata.original_height_pt)
    x2 := pyRound2 (clamp0 x2_pt page_metadata.original_width_pt)
    y2 := pyRound2 (clamp0 y2_pt page_metadata.original_height_pt) }

/-- The mapper restricted to a single x coordinate: exactly the chain of
operations normalized_to_pdf_coords applies to x1 (and to x2). -/
def mapCoordX (pm : PageMetadata) (c : ℚ) : ℚ :=
  let a4 := c * pm.image_width_px * (72 / pm.dpi)
  let pt := if pm.was_converted then (a4 - pm.x_offset_pt) / pm.scale else a4
  pyRound2 (clamp0 pt pm.original_width_pt)

/-- The mapper restricted to a single y coordinate: exactly the chain of
operations normalized_to_pdf_coords applies to y1 (and to y2). -/
def mapCoordY (pm : PageMetadata) (c : ℚ) : ℚ :=
  let a4 := c * pm.image_height_px * (72 / pm.dpi)
  let pt := if pm.was_converted then (a4 - pm.y_offset_pt) / pm.scale else a4
  pyRound2 (clamp0 pt pm.original_height_pt)

/-- The forward transform stated by the spec and by the round-trip claim:
original-page points are scaled and offset onto the canonical page when
wasConverted, converted from points to pixels at the recorded dpi, and
divided by the rasterized image dimensions to give normalized coordinates. -/
def forwardTransform (b : Box4) (pm : PageMetadata) : Box4 :=
  let fwdX := fun (x : ℚ) =>
    let canon := if pm.was_converted then pm.scale * x + pm.x_offset_pt else x
    (canon * pm.dpi / 72) / pm.image_width_px
  let fwdY := fun (y : ℚ) =>
    let canon := if pm.was_converted then pm.scale * y + pm.y_offset_pt else y
    (canon * pm.dpi / 72) / pm.image_height_px
  ⟨fwdX b.x1, fwdY b.y1, fwdX b.x2, fwdY b.y2⟩

/-- A4 width in points (document_processor.py line 131). -/
def A4_WIDTH_PT : ℚ := 595

/-- A4 height in points (document_processor.py line 132). -/
def A4_HEIGHT_PT : ℚ := 842

/-- The geometric fields of the PageMetadata emitted for one source page. -/
structure PageGeometry where
  was_converted : Bool
  scale : ℚ
  x_offset_pt : ℚ
  y_offset_pt : ℚ
  deriving Repr, DecidableEq

/-- Geometry decided by DocumentProcessor._convert_pdf_to_images for one page
of the given size (document_processor.py lines 219-306): the A4 tolerance
check and, for non-A4 pages, the scale and the centering offsets. -/
def pageGeometry (page_width page_height : ℚ) : PageGeometry :=
  let TOLERANCE : ℚ := 1
  if |page_width - A4_WIDTH_PT| ≤ TOLERANCE ∧ |page_height - A4_HEIGHT_PT| ≤ TOLERANCE then
    { was_converted := false, scale := 1, x_offset_pt := 0, y_offset_pt := 0 }
  else
    let scale_x := A4_WIDTH_PT / page_width
    let scale_y := A4_HEIGHT_PT / page_height
    let scale := min scale_x scale_y
    let new_width := page_width * scale
    let new_height := page_height * scale
    { was_converted := true
      scale := scale
      x_offset_pt := (A4_WIDTH_PT - new_width) / 2
      y_offset_pt := (A4_HEIGHT_PT - new_height) / 2 }

/-! ### Rounding lemmas -/

theorem roundHalfEven_sub_le (q : ℚ) : |(roundHalfEven q : ℚ) - q| ≤ 1/2 := by
  unfold roundHalfEven
  have hfl : (⌊q⌋ : ℚ) ≤ q := Int.floor_le q
  have hfu : q < (⌊q⌋ : ℚ) + 1 := Int.lt_floor_add_one q
  by_cases h1 : q - (⌊q⌋ : ℚ) < 1/2
  · simp only [h1, if_true]
    rw [abs_le]
    constructor <;> linarith
  · simp only [h1, if_false]
    by_cases h2 : (1:ℚ)/2 < q - (⌊q⌋ : ℚ)
    · simp only [h2, if_true]
      rw [abs_le]
      push_cast
      constructor <;> linarith
    · simp only [h2, if_false]
      have heq : q - (⌊q⌋ : ℚ) = 1/2 := le_antisymm (not_lt.mp h2) (not_lt.mp h1)
      by_cases h3 : ⌊q⌋ % 2 = 0
      · simp only [h3, if_true]
        rw [abs_le]
        constructor <;> linarith
      · simp only [h3, if_false]
        rw [abs_le]
        push_cast
        constructor <;> linarith

theorem pyRound2_sub_le (q : ℚ) : |pyRound2 q - q| ≤ 1/200 := by
  unfold pyRound2
  have h := roundHalfEven_sub_le (100 * q)
  rw [abs_le] at h ⊢
  constructor <;> [linarith [h.1]; linarith [h.2]]

theorem roundHalfEven_nonneg {q : ℚ} (hq : 0 ≤ q) : 0 ≤ roundHalfEven q := by
  unfold roundHalfEven
  have hf : (0:ℤ) ≤ ⌊q⌋ := Int.floor_nonneg.mpr hq
  by_cases h1 : q - ((⌊q⌋ : ℤ) : ℚ) < 1/2
  · simp only [h1, if_true]; exact hf
  · simp only [h1, if_false]
    by_cases h2 : (1:ℚ)/2 < q - ((⌊q⌋ : ℤ) : ℚ)
    · simp only [h2, if_true]; omega
    · simp only [h2, if_false]
      by_cases h3 : ⌊q⌋ % 2 = 0
      · simp only [h3, if_true]; exact hf
      · simp only [h3, if_false]; omega

theorem pyRound2_nonneg {q : ℚ} (hq : 0 ≤ q) : 0 ≤ pyRound2 q := by
  unfold pyRound2
  have h := roundHalfEven_nonneg (q := 100 * q) (by linarith)
  positivity

theorem clamp0_mem {v hi : ℚ} (hhi : 0 ≤ hi) :
    0 ≤ clamp0 v hi ∧ clamp0 v hi ≤ hi := by
  unfold clamp0
  constructor
  · exact le_max_left 0 _
  · rcases le_total v hi with h | h
    · rw [min_eq_left h]
      rcases le_total 0 v with h0 | h0
      · rw [max_eq_right h0]; exact h
      · rw [max_eq_left h0]; exact hhi
    · rw [min_eq_right h]
      rw [max_eq_right hhi]

theorem clamp0_of_mem {v hi : ℚ} (h0 : 0 ≤ v) (h1 : v ≤ hi) : clamp0 v hi = v := by
  unfold clamp0
  rw [min_eq_left h1, max_eq_right h0]

/-- The forward chain for one x coordinate (spec section 4.2, read forwards). -/
def forwardX (pm : PageMetadata) (x : ℚ) : ℚ :=
  ((if pm.was_converted then pm.scale * x + pm.x_offset_pt else x) * pm.dpi / 72) /
    pm.image_width_px

/-- The forward chain for one y coordinate (spec section 4.2, read forwards). -/
def forwardY (pm : PageMetadata) (y : ℚ) : ℚ :=
  ((if pm.was_converted then pm.scale * y + pm.y_offset_pt else y) * pm.dpi / 72) /
    pm.image_height_px

theorem forwardTransform_eq (b : Box4) (pm : PageMetadata) :
    forwardTransform b pm =
      ⟨forwardX pm b.x1, forwardY pm b.y1, forwardX pm b.x2, forwardY pm b.y2⟩ := rfl

theorem normalized_eq_mapCoord (b : Box4) (pm : PageMetadata) :
    normalized_to_pdf_coords b pm =
      ⟨mapCoordX pm b.x1, mapCoordY pm b.y1, mapCoordX pm b.x2, mapCoordY pm b.y2⟩ := rfl

theorem mapCoordX_forwardX (pm : PageMetadata) (x : ℚ)
    (hs : pm.scale ≠ 0) (hd : pm.dpi ≠ 0) (hw : pm.image_width_px ≠ 0)
    (h0 : 0 ≤ x) (h1 : x ≤ pm.original_width_pt) :
    mapCoordX pm (forwardX pm x) = pyRound2 x := by
  unfold mapCoordX forwardX
  cases hc : pm.was_converted
  · simp only [hc, Bool.false_eq_true, if_false]
    have e : x * pm.dpi / 72 / pm.image_width_px * pm.image_width_px * (72 / pm.dpi) = x := by
      field_simp
      ring
    rw [e, clamp0_of_mem h0 h1]
  · simp only [hc, if_true]
    have e : ((pm.scale * x + pm.x_offset_pt) * pm.dpi / 72 / pm.image_width_px *
        pm.image_width_px * (72 / pm.dpi) - pm.x_offset_pt) / pm.scale = x := by
      field_simp
      ring
    rw [e, clamp0_of_mem h0 h1]

theorem mapCoordY_forwardY (pm : PageMetadata) (y : ℚ)
    (hs : pm.scale ≠ 0) (hd : pm.dpi ≠ 0) (hh : pm.image_height_px ≠ 0)
    (h0 : 0 ≤ y) (h1 : y ≤ pm.original_height_pt) :
    mapCoordY pm (forwardY pm y) = pyRound2 y := by
  unfold mapCoordY forwardY
  cases hc : pm.was_converted
  · simp only [hc, Bool.false_eq_true, if_false]
    have e : y * pm.dpi / 72 / pm.image_height_px * pm.image_height_px * (72 / pm.dpi) = y := by
      field_simp
      ring
    rw [e, clamp0_of_mem h0 h1]
  · simp only [hc, if_true]
    have e : ((pm.scale * y + pm.y_offset_pt) * pm.dpi / 72 / pm.image_height_px *
        pm.image_height_px * (72 / pm.dpi) - pm.y_offset_pt) / pm.scale = y := by
      field_simp
      ring
    rw [e, clamp0_of_mem h0 h1]

/-- C1: for every PageMetadata with positive scale, dpi and image dimensions
and every PdfBox inside [0, originalWidth] x [0, originalHeight], mapping the
box through the forward transform (scale and offset when wasConverted, points
to pixels at dpi, division by the image dimensions) and back through
normalized_to_pdf_coords reproduces every coordinate of the original box
within the rounding tolerance of 0.02pt, for both wasConverted cases. -/
theorem C1_roundtrip (pm : PageMetadata) (b : Box4)
    (hscale : 0 < pm.scale) (hdpi : 0 < pm.dpi)
    (himgw : 0 < pm.image_width_px) (himgh : 0 < pm.image_height_px)
    (hx1l : 0 ≤ b.x1) (hx1u : b.x1 ≤ pm.original_width_pt)
    (hy1l : 0 ≤ b.y1) (hy1u : b.y1 ≤ pm.original_height_pt)
    (hx2l : 0 ≤ b.x2) (hx2u : b.x2 ≤ pm.original_width_pt)
    (hy2l : 0 ≤ b.y2) (hy2u : b.y2 ≤ pm.original_height_pt) :
    |(normalized_to_pdf_coords (forwardTransform b pm) pm).x1 - b.x1| ≤ 1/50 ∧
    |(normalized_to_pdf_coords (forwardTransform b pm) pm).y1 - b.y1| ≤ 1/50 ∧
    |(normalized_to_pdf_coords (forwardTransform b pm) pm).x2 - b.x2| ≤ 1/50 ∧
    |(normalized_to_pdf_coords (forwardTransform b pm) pm).y2 - b.y2| ≤ 1/50 := by
  have e : normalized_to_pdf_coords (forwardTransform b pm) pm =
      ⟨mapCoordX pm (forwardX pm b.x1), mapCoordY pm (forwardY pm b.y1),
       mapCoordX pm (forwardX pm b.x2), mapCoordY pm (forwardY pm b.y2)⟩ := rfl
  rw [e,
    mapCoordX_forwardX pm b.x1 (ne_of_gt hscale) (ne_of_gt hdpi) (ne_of_gt himgw) hx1l hx1u,
    mapCoordY_forwardY pm b.y1 (ne_of_gt hscale) (ne_of_gt hdpi) (ne_of_gt himgh) hy1l hy1u,
    mapCoordX_forwardX pm b.x2 (ne_of_gt hscale) (ne_of_gt hdpi) (ne_of_gt himgw) hx2l hx2u,
    mapCoordY_forwardY pm b.y2 (ne_of_gt hscale) (ne_of_gt hdpi) (ne_of_gt himgh) hy2l hy2u]
  refine ⟨?_, ?_, ?_, ?_⟩ <;>
    exact le_trans (pyRound2_sub_le _) (by norm_num)

/-- Metadata of a converted 500x700pt page rasterized at 200 dpi, as emitted
by the normalizer: scale 1.19, offsets (0, 4.5). -/
def convertedPage500x700 : PageMetadata :=
  { page_number := 1, original_width_pt := 500, original_height_pt := 700
    was_converted := true, scale := 119/100, x_offset_pt := 0, y_offset_pt := 9/2
    image_width_px := 1654, image_height_px := 2339, dpi := 200 }

theorem C1_roundtrip_witness :
    (0:ℚ) < convertedPage500x700.scale ∧
    (|(normalized_to_pdf_coords
        (forwardTransform ⟨10, 20, 30, 40⟩ convertedPage500x700)
        convertedPage500x700).x1 - 10| ≤ 1/50 ∧
     |(normalized_to_pdf_coords
        (forwardTransform ⟨10, 20, 30, 40⟩ convertedPage500x700)
        convertedPage500x700).y1 - 20| ≤ 1/50 ∧
     |(normalized_to_pdf_coords
        (forwardTransform ⟨10, 20, 30, 40⟩ convertedPage500x700)
        convertedPage500x700).x2 - 30| ≤ 1/50 ∧
     |(normalized_to_pdf_coords
        (forwardTransform ⟨10, 20, 30, 40⟩ convertedPage500x700)
        convertedPage500x700).y2 - 40| ≤ 1/50) :=
  ⟨by norm_num [convertedPage500x700],
   C1_roundtrip convertedPage500x700 ⟨10, 20, 30, 40⟩
    (by norm_num [convertedPage500x700]) (by norm_num [convertedPage500x700])
    (by norm_num [convertedPage500x700]) (by norm_num [convertedPage500x700])
    (by norm_num) (by norm_num [convertedPage500x700])
    (by norm_num) (by norm_num [convertedPage500x700])
    (by norm_num) (by norm_num [convertedPage500x700])
    (by norm_num) (by norm_num [convertedPage500x700])⟩

theorem pyRound2_le_of_le {v hi : ℚ} (hv : v ≤ hi) : pyRound2 v ≤ hi + 1/200 := by
  have h := (abs_le.mp (pyRound2_sub_le v)).2
  linarith

theorem mapped_coord_bounds (hi pt : ℚ) (hhi : 0 ≤ hi) :
    0 ≤ pyRound2 (clamp0 pt hi) ∧ pyRound2 (clamp0 pt hi) ≤ hi + 1/200 := by
  obtain ⟨h0, h1⟩ := clamp0_mem (v := pt) hhi
  exact ⟨pyRound2_nonneg h0, pyRound2_le_of_le h1⟩

/-- C2 (amended): for every NormalizedBox, including out-of-range ones, and
every PageMetadata with positive scale and nonnegative page dimensions, each
coordinate returned by normalized_to_pdf_coords lies in
[0, originalWidth + 0.005] (x) and [0, originalHeight + 0.005] (y): the clamp
keeps the pre-rounding value inside [0, bound] and the final 2-decimal
rounding can exceed the bound by at most half of 0.01.  Each of the four
numbers is mapped independently by the same single-coordinate chain and the
output is never reordered. -/
theorem C2_clamping (pm : PageMetadata) (b : Box4)
    (_hscale : 0 < pm.scale)
    (hW : 0 ≤ pm.original_width_pt) (hH : 0 ≤ pm.original_height_pt) :
    (0 ≤ (normalized_to_pdf_coords b pm).x1 ∧
      (normalized_to_pdf_coords b pm).x1 ≤ pm.original_width_pt + 1/200) ∧
    (0 ≤ (normalized_to_pdf_coords b pm).y1 ∧
      (normalized_to_pdf_coords b pm).y1 ≤ pm.original_height_pt + 1/200) ∧
    (0 ≤ (normalized_to_pdf_coords b pm).x2 ∧
      (normalized_to_pdf_coords b pm).x2 ≤ pm.original_width_pt + 1/200) ∧
    (0 ≤ (normalized_to_pdf_coords b pm).y2 ∧
      (normalized_to_pdf_coords b pm).y2 ≤ pm.original_height_pt + 1/200) ∧
    normalized_to_pdf_coords b pm =
      ⟨mapCoordX pm b.x1, mapCoordY pm b.y1, mapCoordX pm b.x2, mapCoordY pm b.y2⟩ := by
  refine ⟨?_, ?_, ?_, ?_, normalized_eq_mapCoord b pm⟩ <;>
    exact mapped_coord_bounds _ _ (by assumption)

theorem C2_clamping_witness :
    (0:ℚ) < convertedPage500x700.scale ∧
    (0 ≤ (normalized_to_pdf_coords ⟨3/2, -1/5, 2, 11/10⟩ convertedPage500x700).x1 ∧
      (normalized_to_pdf_coords ⟨3/2, -1/5, 2, 11/10⟩ convertedPage500x700).x1 ≤
        convertedPage500x700.original_width_pt + 1/200) ∧
    (0 ≤ (normalized_to_pdf_coords ⟨3/2, -1/5, 2, 11/10⟩ convertedPage500x700).y1 ∧
      (normalized_to_pdf_coords ⟨3/2, -1/5, 2, 11/10⟩ convertedPage500x700).y1 ≤
        convertedPage500x700.original_height_pt + 1/200) ∧
    (0 ≤ (normalized_to_pdf_coords ⟨3/2, -1/5, 2, 11/10⟩ convertedPage500x700).x2 ∧
      (normalized_to_pdf_coords ⟨3/2, -1/5, 2, 11/10⟩ convertedPage500x700).x2 ≤
        convertedPage500x700.original_width_pt + 1/200) ∧
    (0 ≤ (normalized_to_pdf_coords ⟨3/2, -1/5, 2, 11/10⟩ convertedPage500x700).y2 ∧
      (normalized_to_pdf_coords ⟨3/2, -1/5, 2, 11/10⟩ convertedPage500x700).y2 ≤
        convertedPage500x700.original_height_pt + 1/200) ∧
    normalized_to_pdf_coords ⟨3/2, -1/5, 2, 11/10⟩ convertedPage500x700 =
      ⟨mapCoordX convertedPage500x700 (3/2), mapCoordY convertedPage500x700 (-1/5),
       mapCoordX convertedPage500x700 2, mapCoordY convertedPage500x700 (11/10)⟩ :=
  ⟨by norm_num [convertedPage500x700],
   C2_clamping convertedPage500x700 ⟨3/2, -1/5, 2, 11/10⟩
    (by norm_num [convertedPage500x700]) (by norm_num [convertedPage500x700])
    (by norm_num [convertedPage500x700])⟩

/-- An A4-within-tolerance page whose exact width, 595.2756pt, is not a
multiple of 0.01pt; unconverted, rasterized at 200 dpi. -/
def a4FractionalPage : PageMetadata :=
  { page_number := 1, original_width_pt := 595.2756, original_height_pt := 841.8898
    was_converted := false, scale := 1, x_offset_pt := 0, y_offset_pt := 0
    image_width_px := 1654, image_height_px := 2339, dpi := 200 }

/-- C2 counterexample: on the claim's own out-of-range input
[1.5, -0.2, 2.0, 1.1] and a page of width 595.2756pt, the first returned
coordinate is 595.28, strictly greater than originalWidth: the final
round-to-2-decimals is applied after the clamp, so the result can leave
[0, originalWidth] by up to 0.005 whenever the page width is not a multiple
of 0.01. -/
theorem C2_clamping_counterexample :
    (normalized_to_pdf_coords ⟨3/2, -1/5, 2, 11/10⟩ a4FractionalPage).x1 >
      a4FractionalPage.original_width_pt ∧
    (0:ℚ) < a4FractionalPage.scale := by
  constructor
  · show pyRound2 (clamp0 (3/2 * 1654 * (72 / 200)) (595.2756 : ℚ)) > (595.2756 : ℚ)
    norm_num [pyRound2, roundHalfEven, clamp0]
  · norm_num [a4FractionalPage]

/-- C3 (amended): a page within 1pt of 595x842 keeps its geometry
(wasConverted false, scale 1, zero offsets); any other page gets
wasConverted true, scale min(595/W, 842/H) and centering offsets
(595 - scale*W)/2 and (842 - scale*H)/2; scale is positive in every case.
The 500x700pt example yields scale 1.19 with xOffset = 0 (the scaled width
fills the canonical page exactly) and yOffset = 4.5. -/
theorem C3_normalizer (W H : ℚ) (hW : 0 < W) (hH : 0 < H) :
    ((|W - 595| ≤ 1 ∧ |H - 842| ≤ 1) →
      pageGeometry W H = ⟨false, 1, 0, 0⟩) ∧
    (¬(|W - 595| ≤ 1 ∧ |H - 842| ≤ 1) →
      pageGeometry W H =
        ⟨true, min (595/W) (842/H), (595 - min (595/W) (842/H) * W) / 2,
         (842 - min (595/W) (842/H) * H) / 2⟩) ∧
    0 < (pageGeometry W H).scale ∧
    pageGeometry 500 700 = ⟨true, 119/100, 0, 9/2⟩ := by
  have h42 : pageGeometry 500 700 = ⟨true, 119/100, 0, 9/2⟩ := by
    have hmin : min ((595:ℚ)/500) (842/700) = 119/100 := by
      rw [min_eq_left] <;> norm_num
    simp only [pageGeometry, A4_WIDTH_PT, A4_HEIGHT_PT]
    norm_num [hmin]
  refine ⟨?_, ?_, ?_, h42⟩
  · intro h
    simp only [pageGeometry, A4_WIDTH_PT, A4_HEIGHT_PT, if_pos h]
  · intro h
    simp only [pageGeometry, A4_WIDTH_PT, A4_HEIGHT_PT, if_neg h]
    congr 1 <;> ring
  · by_cases h : |W - (595:ℚ)| ≤ 1 ∧ |H - (842:ℚ)| ≤ 1
    · simp only [pageGeometry, A4_WIDTH_PT, A4_HEIGHT_PT, if_pos h]
      norm_num
    · simp only [pageGeometry, A4_WIDTH_PT, A4_HEIGHT_PT, if_neg h]
      have h1 : 0 < (595:ℚ)/W := by positivity
      have h2 : 0 < (842:ℚ)/H := by positivity
      exact lt_min h1 h2

theorem C3_normalizer_witness :
    (0:ℚ) < 500 ∧
    pageGeometry 500 700 = ⟨true, 119/100, 0, 9/2⟩ :=
  ⟨by norm_num, (C3_normalizer 500 700 (by norm_num) (by norm_num)).2.2.2⟩

/-- C3 counterexample: the claim asserts that the 500x700pt example produces
nonzero offsets, but the emitted x offset is exactly 0, because
scale = 595/500 makes the scaled width fill the canonical width exactly. -/
theorem C3_normalizer_counterexample :
    (pageGeometry 500 700).x_offset_pt = 0 ∧ (pageGeometry 500 700).was_converted = true := by
  have hmin : min ((595:ℚ)/500) (842/700) = 119/100 := by
    rw [min_eq_left] <;> norm_num
  simp only [pageGeometry, A4_WIDTH_PT, A4_HEIGHT_PT]
  norm_num [hmin]

/-! ### The OCR JSON sanitizer (document_processor.py lines 31-98)

The three regular-expression passes of sanitize_json_string are embedded as
character-list functions.  The character class \d is modelled as the ASCII
digits and \s as the ASCII whitespace characters; each regex here is greedy
and deterministic, so the leftmost-match scan of re.sub is a single pass
that restarts one character further on failure and after the consumed match
on success. -/

/-- ASCII whitespace as matched by \s in the sanitizer patterns. -/
def pyIsSpace (c : Char) : Bool :=
  c = ' ' || c = '\t' || c = '\n' || c = '\r' || c = '\x0b' || c = '\x0c'

/-- str.strip(): drop whitespace from both ends. -/
def pyStrip (s : List Char) : List Char :=
  ((s.dropWhile pyIsSpace).reverse.dropWhile pyIsSpace).reverse

/-- The first whitespace-separated token of a string: part.split()[0] if
part.split() else the empty string. -/
def firstWsToken (s : List Char) : List Char :=
  (s.dropWhile pyIsSpace).takeWhile (fun d => !(pyIsSpace d))

/-- Greedy parse of \d+\.?\d* at the head of the input: the token and the
rest, or none when the input does not start with a digit. -/
def numCore (s : List Char) : Option (List Char × List Char) :=
  let ds := s.takeWhile Char.isDigit
  if ds.isEmpty then none
  else
    match s.dropWhile Char.isDigit with
    | '.' :: rs => some (ds ++ '.' :: rs.takeWhile Char.isDigit, rs.dropWhile Char.isDigit)
    | rest => some (ds, rest)

/-- Greedy parse of -?\d+\.?\d* at the head of the input. -/
def numToken : List Char → Option (List Char × List Char)
  | [] => none
  | c :: cs =>
    if c = '-' then (numCore cs).map (fun p => ('-' :: p.1, p.2))
    else numCore (c :: cs)

/-- Anchored full match of the number pattern: re.match(r'^-?\d+\.?\d*$', s).
The token is stripped, so the end anchor cannot sit before a trailing
newline. -/
def matchFullNum (s : List Char) : Bool :=
  match numToken s with
  | some (_, rest) => rest.isEmpty
  | none => false

/-- Greedy parse of \d+\.\d* (decimal point required) at the head. -/
def numCoreDot (s : List Char) : Option (List Char × List Char) :=
  let ds := s.takeWhile Char.isDigit
  if ds.isEmpty then none
  else
    match s.dropWhile Char.isDigit with
    | '.' :: rs => some (ds ++ '.' :: rs.takeWhile Char.isDigit, rs.dropWhile Char.isDigit)
    | _ => none

/-- Anchored full match of re.match(r'^-?\d+\.\d*$', s). -/
def matchDotNum (s : List Char) : Bool :=
  match (match s with
         | '-' :: cs => numCoreDot cs
         | other => numCoreDot other) with
  | some (_, rest) => rest.isEmpty
  | none => false

/-- re.search(r'(-?\d+\.?\d*)', s): the leftmost number token anywhere in
the string. -/
def searchNum : List Char → Option (List Char)
  | [] => none
  | c :: cs =>
    match numToken (c :: cs) with
    | some (t, _) => some t
    | none => searchNum cs

/-- The per-slot repair of fix_coordinates_array
(document_processor.py lines 64-81): keep a pure number slot, take the
leading number of a number-then-text slot, otherwise search for any number
in the slot, skipping the slot when none is found. -/
def slotClean (part0 : List Char) : Option (List Char) :=
  let part := pyStrip part0
  if matchFullNum part then some part
  else if matchDotNum (firstWsToken part) then
    match numToken part with
    | some (t, _) => some t
    | none => some ['0', '.', '0']
  else
    match searchNum part with
    | some t => if t.length > 0 then some t else none
    | none => none

/-- content.split(','), with Python splitting semantics (keeps empty
slots). -/
def splitOnComma : List Char → List (List Char)
  | [] => [[]]
  | ',' :: cs => [] :: splitOnComma cs
  | c :: cs =>
    match splitOnComma cs with
    | [] => [[c]]
    | t :: ts => (c :: t) :: ts

/-- fix_coordinates_array (document_processor.py lines 55-88): repair the
matched content of one coordinate array, returning the list of entries after
padding with 0.0 and truncating to the first 4. -/
def fixCoordinatesArray (content : List Char) : List (List Char) :=
  let cleaned_parts := (splitOnComma content).filterMap slotClean
  (cleaned_parts ++ List.replicate (4 - cleaned_parts.length) ['0', '.', '0']).take 4

/-- One re.sub pass: scan from the left, on a match emit the replacement and
continue after the matched text, otherwise move one character on.  Every
matcher used here consumes at least one character, so fuel equal to the
length of the input suffices and the fuel-exhausted branch is never
reached. -/
def subScanFuel (m : List Char → Option (List Char × List Char)) :
    ℕ → List Char → List Char
  | _, [] => []
  | 0, s => s
  | fuel+1, c :: cs =>
    match m (c :: cs) with
    | some (rep, rest) => rep ++ subScanFuel m fuel rest
    | none => c :: subScanFuel m fuel cs

/-- re.sub with matcher m over the whole input. -/
def subScan (m : List Char → Option (List Char × List Char))
    (s : List Char) : List Char :=
  subScanFuel m s.length s

/-- Matcher for pattern 1, r'(\d+)\s+[a-zA-Z]+\s*,' with replacement
r'\1.0,' (document_processor.py line 43). -/
def pattern1Matcher (s : List Char) : Option (List Char × List Char) :=
  let ds := s.takeWhile Char.isDigit
  if ds.isEmpty then none else
  let r1 := s.dropWhile Char.isDigit
  if (r1.takeWhile pyIsSpace).isEmpty then none else
  let r2 := r1.dropWhile pyIsSpace
  if (r2.takeWhile Char.isAlpha).isEmpty then none else
  let r3 := (r2.dropWhile Char.isAlpha).dropWhile pyIsSpace
  match r3 with
  | ',' :: rest => some (ds ++ ['.', '0', ','], rest)
  | _ => none

/-- [a-zA-Z_] as used in pattern 2. -/
def isWordChar (c : Char) : Bool := c.isAlpha || c = '_'

/-- Matcher for pattern 2, r',\s*[a-zA-Z_]+\s*,' with replacement ', 0.0,'
(document_processor.py line 47). -/
def pattern2Matcher (s : List Char) : Option (List Char × List Char) :=
  match s with
  | ',' :: r1 =>
    let r2 := r1.dropWhile pyIsSpace
    if (r2.takeWhile isWordChar).isEmpty then none else
    let r3 := (r2.dropWhile isWordChar).dropWhile pyIsSpace
    match r3 with
    | ',' :: rest => some ((", 0.0,").data, rest)
    | _ => none
  | _ => none

/-- ", ".join over the repaired entries. -/
def joinCommaSpace : List (List Char) → List Char
  | [] => []
  | [t] => t
  | t :: ts => t ++ ',' :: ' ' :: joinCommaSpace ts

/-- Matcher for pattern 3, r'"(Coordinates|coordinates)":\s*\[\s*([^\]]+)\]'
with the replacement built from fix_coordinates_array
(document_processor.py lines 91-96).  The group ([^\]]+) is everything up to
the closing bracket stripped of the leading whitespace taken by \s*, except
that when that span is all whitespace the backtracking \s* leaves exactly
its last character to the group. -/
def coordMatcher (s : List Char) : Option (List Char × List Char) :=
  match s with
  | '"' :: r1 =>
    let keyRes : Option (List Char × List Char) :=
      if List.isPrefixOf ("Coordinates").data r1 then some (("Coordinates").data, r1.drop 11)
      else if List.isPrefixOf ("coordinates").data r1 then some (("coordinates").data, r1.drop 11)
      else none
    match keyRes with
    | none => none
    | some (key, r2) =>
      match r2 with
      | '"' :: ':' :: r3 =>
        match r3.dropWhile pyIsSpace with
        | '[' :: r5 =>
          let inner := r5.takeWhile (fun c => !(c = ']'))
          match r5.dropWhile (fun c => !(c = ']')) with
          | ']' :: rest =>
            if inner.isEmpty then none
            else
              let content :=
                if inner.all pyIsSpace then [inner.getLastD ' ']
                else inner.dropWhile pyIsSpace
              some ('"' :: key ++ '"' :: ':' :: ' ' :: '[' ::
                    joinCommaSpace (fixCoordinatesArray content) ++ [']'], rest)
          | _ => none
        | _ => none
      | _ => none
  | _ => none

/-- sanitize_json_string (document_processor.py lines 31-98): pattern 1 and
pattern 2 applied globally to the whole string, then the coordinate-array
pass. -/
def sanitize_json_string (s : List Char) : List Char :=
  subScan coordMatcher (subScan pattern2Matcher (subScan pattern1Matcher s))

/-- No position of the string matches the given matcher. -/
def matchFreeOn (m : List Char → Option (List Char × List Char)) :
    List Char → Bool
  | [] => true
  | c :: cs => (m (c :: cs)).isNone && matchFreeOn m cs

/-! ### Sanitizer lemmas -/

theorem takeWhile_append_all {p : Char → Bool} :
    ∀ {l : List Char}, (∀ c ∈ l, p c = true) → ∀ (m : List Char),
      (l ++ m).takeWhile p = l ++ m.takeWhile p := by
  intro l
  induction l with
  | nil => intro _ m; simp
  | cons c cs ih =>
    intro h m
    simp only [List.cons_append, List.takeWhile_cons, h c (List.mem_cons_self c cs),
      if_true]
    rw [ih (fun d hd => h d (List.mem_cons_of_mem c hd)) m]

theorem dropWhile_append_all {p : Char → Bool} :
    ∀ {l : List Char}, (∀ c ∈ l, p c = true) → ∀ (m : List Char),
      (l ++ m).dropWhile p = m.dropWhile p := by
  intro l
  induction l with
  | nil => intro _ m; simp
  | cons c cs ih =>
    intro h m
    simp only [List.cons_append, List.dropWhile_cons, h c (List.mem_cons_self c cs),
      if_true]
    exact ih (fun d hd => h d (List.mem_cons_of_mem c hd)) m

theorem takeWhile_all_eq {p : Char → Bool} {l : List Char}
    (h : ∀ c ∈ l, p c = true) : l.takeWhile p = l := by
  have := takeWhile_append_all h []
  simpa using this

theorem dropWhile_all_eq {p : Char → Bool} {l : List Char}
    (h : ∀ c ∈ l, p c = true) : l.dropWhile p = [] := by
  have := dropWhile_append_all h []
  simpa using this

theorem mem_takeWhile_p {p : Char → Bool} :
    ∀ {l : List Char} {c : Char}, c ∈ l.takeWhile p → p c = true := by
  intro l
  induction l with
  | nil => intro c hc; simp [List.takeWhile] at hc
  | cons a l ih =>
    intro c hc
    rw [List.takeWhile_cons] at hc
    by_cases ha : p a = true
    · rw [if_pos ha] at hc
      rcases List.mem_cons.mp hc with h | h
      · exact h ▸ ha
      · exact ih h
    · rw [if_neg ha] at hc
      simp at hc

theorem numCore_self {s u r : List Char} (h : numCore s = some (u, r)) :
    numCore u = some (u, []) := by
  unfold numCore at h
  by_cases hne : (s.takeWhile Char.isDigit).isEmpty
  · rw [if_pos hne] at h; exact absurd h (by simp)
  · rw [if_neg hne] at h
    have hall : ∀ c ∈ s.takeWhile Char.isDigit, Char.isDigit c = true :=
      fun c hc => mem_takeWhile_p hc
    have hdigDot : Char.isDigit ('.') = false := by decide
    split at h
    case _ rs heq =>
      -- the '.' arm: u = ds ++ '.' :: rs.takeWhile isDigit
      injection h with h1
      injection h1 with hu hr
      subst hu
      have hall2 : ∀ c ∈ rs.takeWhile Char.isDigit, Char.isDigit c = true :=
        fun c hc => mem_takeWhile_p hc
      unfold numCore
      rw [takeWhile_append_all hall]
      have hdot : List.takeWhile Char.isDigit ('.' :: rs.takeWhile Char.isDigit) = [] := by
        simp [List.takeWhile_cons, hdigDot]
      rw [hdot, List.append_nil, if_neg hne, dropWhile_append_all hall]
      have hdrop : List.dropWhile Char.isDigit ('.' :: rs.takeWhile Char.isDigit) =
          '.' :: rs.takeWhile Char.isDigit := by
        simp [List.dropWhile_cons, hdigDot]
      rw [hdrop]
      split
      case _ rs2 heq2 =>
        injection heq2 with hc2 hrs2
        subst hrs2
        rw [takeWhile_all_eq hall2, dropWhile_all_eq hall2]
      case _ hfall =>
        exact absurd rfl (hfall (rs.takeWhile Char.isDigit))
    case _ hne2 =>
      -- the fallback arm: u = ds, r = s.dropWhile isDigit
      injection h with h1
      injection h1 with hu hr
      subst hu
      unfold numCore
      rw [takeWhile_all_eq hall, if_neg hne, dropWhile_all_eq hall]

theorem numCore_head {s u r : List Char} (h : numCore s = some (u, r)) :
    ∃ d du, u = d :: du ∧ Char.isDigit d = true := by
  unfold numCore at h
  by_cases hne : (s.takeWhile Char.isDigit).isEmpty
  · rw [if_pos hne] at h; exact absurd h (by simp)
  · rw [if_neg hne] at h
    have hall : ∀ c ∈ s.takeWhile Char.isDigit, Char.isDigit c = true :=
      fun c hc => mem_takeWhile_p hc
    cases hds : s.takeWhile Char.isDigit with
    | nil => rw [hds] at hne; simp at hne
    | cons d du =>
      have hd : Char.isDigit d = true := hall d (by rw [hds]; exact List.mem_cons_self d du)
      rw [hds] at h
      split at h
      case _ rs heq =>
        injection h with h1
        injection h1 with hu hr
        exact ⟨d, du ++ '.' :: rs.takeWhile Char.isDigit, by rw [← hu]; simp, hd⟩
      case _ =>
        injection h with h1
        injection h1 with hu hr
        exact ⟨d, du, hu.symm, hd⟩

theorem numToken_full {s u r : List Char} (h : numToken s = some (u, r)) :
    matchFullNum u = true := by
  cases s with
  | nil => simp [numToken] at h
  | cons c cs =>
    have h2 : (if c = '-' then (numCore cs).map (fun p => ('-' :: p.1, p.2))
        else numCore (c :: cs)) = some (u, r) := h
    by_cases hc : c = '-'
    · rw [if_pos hc] at h2
      cases hcore : numCore cs with
      | none =>
        rw [hcore] at h2
        have h3 : (none : Option (List Char × List Char)) = some (u, r) := h2
        exact Option.noConfusion h3
      | some p =>
        obtain ⟨p1, p2⟩ := p
        rw [hcore] at h2
        have h3 : some (('-' :: p1, p2) : List Char × List Char) = some (u, r) := h2
        injection h3 with h1
        injection h1 with hu hr
        subst hu
        have hself := numCore_self hcore
        have htok2 : numToken ('-' :: p1) = some ('-' :: p1, []) := by
          show (if ('-' : Char) = '-' then (numCore p1).map (fun p => ('-' :: p.1, p.2))
              else numCore ('-' :: p1)) = some ('-' :: p1, [])
          rw [if_pos rfl, hself]
          rfl
        unfold matchFullNum
        rw [htok2]
        rfl
    · rw [if_neg hc] at h2
      have hself := numCore_self h2
      obtain ⟨d, du, hu, hd⟩ := numCore_head h2
      have hdm : d ≠ '-' := by
        intro hdm; rw [hdm] at hd; simp [Char.isDigit] at hd
      have htok2 : numToken u = some (u, []) := by
        rw [hu]
        show (if d = '-' then (numCore du).map (fun p => ('-' :: p.1, p.2))
            else numCore (d :: du)) = some (d :: du, [])
        rw [if_neg hdm, ← hu, hself]
      unfold matchFullNum
      rw [htok2]
      rfl

theorem searchNum_full {s t : List Char} (h : searchNum s = some t) :
    matchFullNum t = true := by
  induction s with
  | nil => simp [searchNum] at h
  | cons c cs ih =>
    unfold searchNum at h
    cases htok : numToken (c :: cs) with
    | some p =>
      obtain ⟨p1, p2⟩ := p
      rw [htok] at h
      injection h with ht
      subst ht
      exact numToken_full htok
    | none =>
      rw [htok] at h
      exact ih h

theorem slotClean_num {p t : List Char} (h : slotClean p = some t) :
    matchFullNum t = true := by
  unfold slotClean at h
  by_cases h1 : matchFullNum (pyStrip p) = true
  · rw [if_pos h1] at h
    injection h with ht
    exact ht ▸ h1
  · rw [if_neg h1] at h
    by_cases h2 : matchDotNum (firstWsToken (pyStrip p)) = true
    · rw [if_pos h2] at h
      cases htok : numToken (pyStrip p) with
      | some q =>
        obtain ⟨q1, q2⟩ := q
        rw [htok] at h
        injection h with ht
        subst ht
        exact numToken_full htok
      | none =>
        rw [htok] at h
        injection h with ht
        subst ht
        decide
    · rw [if_neg h2] at h
      cases hs : searchNum (pyStrip p) with
      | some t0 =>
        rw [hs] at h
        have h3 : (if t0.length > 0 then some t0 else none) = some t := h
        by_cases hlen : t0.length > 0
        · rw [if_pos hlen] at h3
          injection h3 with ht
          subst ht
          exact searchNum_full hs
        · rw [if_neg hlen] at h3
          exact absurd h3 (by simp)
      | none =>
        rw [hs] at h
        have h3 : (none : Option (List Char)) = some t := h
        exact absurd h3 (by simp)

/-- C5 (amended): the repair of every matched coordinate array — one whose
bracket body is nonempty, since the regex group ([^\]]+) requires at least
one character — yields exactly 4 entries, never fewer, never more, and
every entry is a numeric token of the shape -?\d+\.?\d* (a kept number
slot, an extracted leading or embedded number, or the 0.0 padding).  An
empty array is not matched and is left with 0 entries (see the
counterexample). -/
theorem C5_coordinate_repair (content : List Char) :
    (fixCoordinatesArray content).length = 4 ∧
    ∀ t ∈ fixCoordinatesArray content, matchFullNum t = true := by
  unfold fixCoordinatesArray
  constructor
  · rw [List.length_take, List.length_append, List.length_replicate]
    omega
  · intro t ht
    have ht2 := List.take_subset _ _ ht
    rcases List.mem_append.mp ht2 with hmem | hmem
    · obtain ⟨part, hpart, hsome⟩ := List.mem_filterMap.mp hmem
      exact slotClean_num hsome
    · rw [List.eq_of_mem_replicate hmem]
      decide

/-- C5 counterexample: the claim as stated — every Coordinates array is
rewritten to exactly 4 numeric entries, never fewer — fails on the input
key-value text with the empty array []: the coordinate-array regex body
([^\]]+) never matches an empty bracket interior (and the two global
number patterns find nothing either), so sanitize_json_string returns the
input unchanged and the Coordinates array keeps 0 entries. -/
theorem C5_coordinate_repair_counterexample :
    sanitize_json_string (("\"Coordinates\": []").data) = ("\"Coordinates\": []").data ∧
    matchFreeOn coordMatcher (("\"Coordinates\": []").data) = true := by
  constructor
  · decide
  · decide

/-- The spec's own repair example, evaluated: a slot holding a Devanagari
word is discarded and the array is padded back to 4 numeric entries. -/
theorem C5_coordinate_repair_example :
    fixCoordinatesArray ("0.22, 0.627, विशेषाधिकार, 0.862").data =
      [("0.22").data, ("0.627").data, ("0.862").data, ("0.0").data] := by
  decide

theorem subScanFuel_id_of_free (m : List Char → Option (List Char × List Char)) :
    ∀ (s : List Char), matchFreeOn m s = true → ∀ fuel, subScanFuel m fuel s = s := by
  intro s
  induction s with
  | nil => intro _ fuel; cases fuel <;> rfl
  | cons c cs ih =>
    intro h fuel
    unfold matchFreeOn at h
    rw [Bool.and_eq_true] at h
    obtain ⟨h1, h2⟩ := h
    rw [Option.isNone_iff_eq_none] at h1
    cases fuel with
    | zero => rfl
    | succ f =>
      unfold subScanFuel
      rw [h1, ih h2 f]

/-- C6 (amended): only the third, coordinate-array pass of
sanitize_json_string is restricted to the detected coordinate arrays: on any
string in which the coordinate-array regex has no match, that pass is the
identity.  The preceding two passes are global and may rewrite text
anywhere, including prose (see the counterexample). -/
theorem C6_sanitizer_frame (s : List Char)
    (h : matchFreeOn coordMatcher s = true) :
    subScan coordMatcher s = s :=
  subScanFuel_id_of_free coordMatcher s h s.length

theorem C6_sanitizer_frame_witness :
    matchFreeOn coordMatcher (("score: 7").data) = true ∧
    subScan coordMatcher (("score: 7").data) = ("score: 7").data :=
  ⟨by decide, C6_sanitizer_frame (("score: 7").data) (by decide)⟩

/-- C6 counterexample: a prose input with no coordinate array anywhere is
still altered by sanitize_json_string — pattern 1 rewrites the prose
fragment "10 points," to "10.0," — so the sanitizer does change values
outside the detected coordinate-array shape. -/
theorem C6_sanitizer_counterexample :
    matchFreeOn coordMatcher (("He scored 10 points, then left.").data) = true ∧
    sanitize_json_string (("He scored 10 points, then left.").data) ≠
      ("He scored 10 points, then left.").data := by
  constructor
  · decide
  · decide

/-! ### JSON values and the evaluation validator (pipeline.py lines 342-406) -/

/-- JSON-like values as produced by json.loads: objects are association
lists in insertion order, matching Python dict iteration order. -/
inductive Json where
  | null : Json
  | bool (b : Bool) : Json
  | num (q : ℚ) : Json
  | str (s : String) : Json
  | arr (items : List Json) : Json
  | obj (fields : List (String × Json)) : Json
  deriving Repr

/-- Key lookup in an object field list: first match, as in a Python dict
(whose keys are unique). -/
def lookupKey (fields : List (String × Json)) (k : String) : Option Json :=
  match fields with
  | [] => none
  | (k2, v) :: rest => if k2 = k then some v else lookupKey rest k

/-- Substring containment on character lists. -/
def listContainsSub (needle : List Char) : List Char → Bool
  | [] => needle.isEmpty
  | c :: cs => List.isPrefixOf needle (c :: cs) || listContainsSub needle cs

/-- The Python expression (key in value) for the value shapes the validator
meets: key lookup for dicts, element membership for lists, substring
containment for strings.  For the remaining primitives Python raises
TypeError; those shapes are never reached under the hypotheses of the
theorems below. -/
def pyContains (j : Json) (k : String) : Bool :=
  match j with
  | Json.obj fields => (lookupKey fields k).isSome
  | Json.arr items => items.any (fun it => match it with | Json.str s => s = k | _ => false)
  | Json.str s => listContainsSub k.data s.data
  | _ => false

/-- The error list for one comment entry (pipeline.py lines 383-390);
cpfx is the f-string prefix "Question {q_id} -> {section}[{i}]". -/
def commentEntryErrors (cpfx : String) (comment : Json) : List String :=
  (if pyContains comment "page" then [] else [cpfx ++ ": Missing \x27page\x27"]) ++
  (if pyContains comment "coordinates" then
    match comment with
    | Json.obj fs =>
      match lookupKey fs "coordinates" with
      | some (Json.arr l) =>
        if l.length = 4 then []
        else [cpfx ++ ": \x27coordinates\x27 should be array of 4 values"]
      | _ => [cpfx ++ ": \x27coordinates\x27 should be array of 4 values"]
    | _ => []  -- getitem on a non-dict: TypeError in Python, unreachable here
  else [cpfx ++ ": Missing \x27coordinates\x27"])

/-- The loop (for i, comment in enumerate(section_comments)) of
pipeline.py lines 383-390, carrying the running index. -/
def sectionCommentList (pfx sect : String) (i : ℕ) : List Json → List String
  | [] => []
  | c :: cs =>
    commentEntryErrors (pfx ++ " -> " ++ sect ++ "[" ++ toString i ++ "]") c ++
      sectionCommentList pfx sect (i + 1) cs

/-- The error list for one required section of Comments
(pipeline.py lines 375-390). -/
def sectionErrors (pfx sect : String) (comments : Json) : List String :=
  if pyContains comments sect then
    match comments with
    | Json.obj cfs =>
      match lookupKey cfs sect with
      | some (Json.arr cl) => sectionCommentList pfx sect 0 cl
      | some _ => [pfx ++ ": \x27" ++ sect ++ "\x27 should be a list"]
      | none => []  -- impossible: containment on an object implies lookup
    | _ => []  -- getitem on a non-dict: TypeError in Python, unreachable here
  else [pfx ++ ": Missing \x27" ++ sect ++ "\x27 in Comments"]

/-- The required comment sections, in validation order. -/
def commentSections : List String := ["Introduction", "Body", "Conclusion"]

/-- The error list for one question (pipeline.py lines 362-396). -/
def questionErrorList (q_id : String) (q_data : Json) : List String :=
  let pfx := "Question " ++ q_id
  (if pyContains q_data "Score" then [] else [pfx ++ ": Missing \x27Score\x27"]) ++
  (if pyContains q_data "Sub-part Coverage" then []
   else [pfx ++ ": Missing \x27Sub-part Coverage\x27"]) ++
  (if pyContains q_data "Comments" then
    match q_data with
    | Json.obj qfs =>
      match lookupKey qfs "Comments" with
      | some comments => (commentSections.map (fun sect => sectionErrors pfx sect comments)).flatten
      | none => []  -- impossible: containment on an object implies lookup
    | _ => []  -- getitem on a non-dict: TypeError in Python, unreachable here
  else [pfx ++ ": Missing \x27Comments\x27"]) ++
  (if pyContains q_data "HygieneSummary" then []
   else [pfx ++ ": Missing \x27HygieneSummary\x27"]) ++
  (if pyContains q_data "Summary" then [] else [pfx ++ ": Missing \x27Summary\x27"])

/-- validate_evaluation_json (pipeline.py lines 342-406). -/
def validate_evaluation_json (evaluation : Json) : Bool × List String :=
  match evaluation with
  | Json.obj fields =>
    let qErrs :=
      match lookupKey fields "Questions" with
      | none => ["Missing \x27Questions\x27 in evaluation"]
      | some (Json.obj qs) => (qs.map (fun q => questionErrorList q.1 q.2)).flatten
      | some _ => ["\x27Questions\x27 is not a valid object"]
    let oErrs :=
      match lookupKey fields "OverallSummary" with
      | none => ["Missing \x27OverallSummary\x27 in evaluation"]
      | some (Json.arr os) => if os.length = 0 then ["\x27OverallSummary\x27 is empty"] else []
      | some _ => ["\x27OverallSummary\x27 should be a list"]
    let errors := qErrs ++ oErrs
    (errors.isEmpty, errors)
  | _ => (false, ["Evaluation is not a valid JSON object"])

/-- A well-formed comment entry: it has a page and a 4-element coordinates
list (the fields required by the spec contract). -/
def commentOk (c : Json) : Bool :=
  match c with
  | Json.obj fs =>
    (lookupKey fs "page").isSome &&
    (match lookupKey fs "coordinates" with
     | some (Json.arr l) => decide (l.length = 4)
     | _ => false)
  | _ => false

/-- A well-formed Comments section: present and a list of well-formed
entries. -/
def sectionOk (cfs : List (String × Json)) (sect : String) : Bool :=
  match lookupKey cfs sect with
  | some (Json.arr cl) => cl.all commentOk
  | _ => false

/-- A well-formed question: Score, Sub-part Coverage, Comments with the
three section lists of well-formed entries, HygieneSummary and Summary. -/
def questionOk (q : Json) : Bool :=
  match q with
  | Json.obj qfs =>
    (lookupKey qfs "Score").isSome &&
    (lookupKey qfs "Sub-part Coverage").isSome &&
    (match lookupKey qfs "Comments" with
     | some (Json.obj cfs) => commentSections.all (sectionOk cfs)
     | _ => false) &&
    (lookupKey qfs "HygieneSummary").isSome &&
    (lookupKey qfs "Summary").isSome
  | _ => false

/-! ### C7 lemmas -/

theorem commentEntryErrors_nil {c : Json} (h : commentOk c = true) (cpfx : String) :
    commentEntryErrors cpfx c = [] := by
  cases c with
  | obj fs =>
    unfold commentOk at h
    rw [Bool.and_eq_true] at h
    obtain ⟨hp, hco⟩ := h
    cases hl : lookupKey fs "coordinates" with
    | none =>
      rw [hl] at hco
      exact Bool.noConfusion (show false = true from hco)
    | some v =>
      rw [hl] at hco
      cases v with
      | arr l =>
        have hlen : l.length = 4 := of_decide_eq_true hco
        have hcc : pyContains (Json.obj fs) "coordinates" = true := by
          show (lookupKey fs "coordinates").isSome = true
          rw [hl]; rfl
        have hpc : pyContains (Json.obj fs) "page" = true := hp
        unfold commentEntryErrors
        rw [hpc, hcc]
        simp only [if_true]
        rw [hl]
        simp [hlen]
      | null => exact Bool.noConfusion (show false = true from hco)
      | bool b => exact Bool.noConfusion (show false = true from hco)
      | num q => exact Bool.noConfusion (show false = true from hco)
      | str s => exact Bool.noConfusion (show false = true from hco)
      | obj fs2 => exact Bool.noConfusion (show false = true from hco)
  | null => exact Bool.noConfusion (show false = true from h)
  | bool b => exact Bool.noConfusion (show false = true from h)
  | num q => exact Bool.noConfusion (show false = true from h)
  | str s => exact Bool.noConfusion (show false = true from h)
  | arr l => exact Bool.noConfusion (show false = true from h)

theorem sectionCommentList_nil (pfx sect : String) :
    ∀ (cl : List Json) (i : ℕ), (∀ c ∈ cl, commentOk c = true) →
      sectionCommentList pfx sect i cl = [] := by
  intro cl
  induction cl with
  | nil => intro i _; rfl
  | cons c cs ih =>
    intro i hall
    unfold sectionCommentList
    rw [commentEntryErrors_nil (hall c (List.mem_cons_self c cs)) _, List.nil_append,
      ih (i + 1) (fun d hd => hall d (List.mem_cons_of_mem c hd))]

theorem sectionErrors_nil (pfx sect : String) (cfs : List (String × Json))
    (h : sectionOk cfs sect = true) : sectionErrors pfx sect (Json.obj cfs) = [] := by
  unfold sectionOk at h
  cases hl : lookupKey cfs sect with
  | none =>
    rw [hl] at h
    exact Bool.noConfusion (show false = true from h)
  | some v =>
    rw [hl] at h
    cases v with
    | arr cl =>
      have hall : ∀ c ∈ cl, commentOk c = true :=
        List.all_eq_true.mp (show cl.all commentOk = true from h)
      have hcc : pyContains (Json.obj cfs) sect = true := by
        show (lookupKey cfs sect).isSome = true
        rw [hl]; rfl
      unfold sectionErrors
      rw [hcc]
      simp only [if_true]
      rw [hl]
      exact sectionCommentList_nil pfx sect cl 0 hall
    | null => exact Bool.noConfusion (show false = true from h)
    | bool b => exact Bool.noConfusion (show false = true from h)
    | num q => exact Bool.noConfusion (show false = true from h)
    | str s => exact Bool.noConfusion (show false = true from h)
    | obj fs2 => exact Bool.noConfusion (show false = true from h)

theorem questionErrorList_nil (q_id : String) {q : Json} (h : questionOk q = true) :
    questionErrorList q_id q = [] := by
  cases q with
  | obj qfs =>
    unfold questionOk at h
    rw [Bool.and_eq_true, Bool.and_eq_true, Bool.and_eq_true, Bool.and_eq_true] at h
    obtain ⟨⟨⟨⟨hs, hsp⟩, hcm⟩, hh⟩, hsum⟩ := h
    cases hl : lookupKey qfs "Comments" with
    | none =>
      rw [hl] at hcm
      exact Bool.noConfusion (show false = true from hcm)
    | some v =>
      rw [hl] at hcm
      cases v with
      | obj cfs =>
        have hsec : ∀ sect ∈ commentSections, sectionOk cfs sect = true :=
          List.all_eq_true.mp (show commentSections.all (sectionOk cfs) = true from hcm)
        have h1 : pyContains (Json.obj qfs) "Score" = true := hs
        have h2 : pyContains (Json.obj qfs) "Sub-part Coverage" = true := hsp
        have h3 : pyContains (Json.obj qfs) "Comments" = true := by
          show (lookupKey qfs "Comments").isSome = true
          rw [hl]; rfl
        have h4 : pyContains (Json.obj qfs) "HygieneSummary" = true := hh
        have h5 : pyContains (Json.obj qfs) "Summary" = true := hsum
        unfold questionErrorList
        rw [h1, h2, h3, h4, h5]
        simp only [if_true]
        rw [hl]
        have e1 := sectionErrors_nil ("Question " ++ q_id) "Introduction" cfs
          (hsec "Introduction" (by simp [commentSections]))
        have e2 := sectionErrors_nil ("Question " ++ q_id) "Body" cfs
          (hsec "Body" (by simp [commentSections]))
        have e3 := sectionErrors_nil ("Question " ++ q_id) "Conclusion" cfs
          (hsec "Conclusion" (by simp [commentSections]))
        simp [commentSections, e1, e2, e3]
      | null => exact Bool.noConfusion (show false = true from hcm)
      | bool b => exact Bool.noConfusion (show false = true from hcm)
      | num q2 => exact Bool.noConfusion (show false = true from hcm)
      | str s => exact Bool.noConfusion (show false = true from hcm)
      | arr l => exact Bool.noConfusion (show false = true from hcm)
  | null => exact Bool.noConfusion (show false = true from h)
  | bool b => exact Bool.noConfusion (show false = true from h)
  | num q2 => exact Bool.noConfusion (show false = true from h)
  | str s => exact Bool.noConfusion (show false = true from h)
  | arr l => exact Bool.noConfusion (show false = true from h)

theorem questionErrors_flatten_nil :
    ∀ (qs : List (String × Json)), (∀ p ∈ qs, questionOk p.2 = true) →
      (qs.map (fun q => questionErrorList q.1 q.2)).flatten = [] := by
  intro qs
  induction qs with
  | nil => intro _; rfl
  | cons p ps ih =>
    intro hall
    rw [List.map_cons, List.flatten_cons,
      questionErrorList_nil p.1 (hall p (List.mem_cons_self p ps)), List.nil_append]
    exact ih (fun d hd => hall d (List.mem_cons_of_mem p hd))

/-- C7: validate_evaluation_json on an evaluation whose questions all carry
Score, Sub-part Coverage, Comments with Introduction/Body/Conclusion lists
whose entries each have page and a 4-element coordinates list,
HygieneSummary and Summary (any number of questions): when OverallSummary is
absent it returns is_valid = false with exactly the one error message naming
that field, and when a non-empty OverallSummary list is present it returns
is_valid = true with an empty error list. -/
theorem C7_validation (fields qs : List (String × Json))
    (hq : lookupKey fields "Questions" = some (Json.obj qs))
    (hqok : ∀ p ∈ qs, questionOk p.2 = true) :
    (lookupKey fields "OverallSummary" = none →
      validate_evaluation_json (Json.obj fields) =
        (false, ["Missing \x27OverallSummary\x27 in evaluation"])) ∧
    (∀ os, lookupKey fields "OverallSummary" = some (Json.arr os) → os.length ≠ 0 →
      validate_evaluation_json (Json.obj fields) = (true, [])) := by
  have hqe := questionErrors_flatten_nil qs hqok
  constructor
  · intro ho
    simp only [validate_evaluation_json, hq, ho, hqe]
    rfl
  · intro os hos hne
    simp only [validate_evaluation_json, hq, hos, hqe, if_neg hne]
    rfl

/-- A fully populated sample question. -/
def sampleQuestion : Json := Json.obj [
  ("Score", Json.str "7/10"),
  ("Sub-part Coverage", Json.str "full"),
  ("Comments", Json.obj [
    ("Introduction", Json.arr [Json.obj [
      ("comment", Json.str "good opening"),
      ("page", Json.num 1),
      ("coordinates", Json.arr [Json.num (1/10), Json.num (2/10),
        Json.num (3/10), Json.num (4/10)])]]),
    ("Body", Json.arr []),
    ("Conclusion", Json.arr [])]),
  ("HygieneSummary", Json.str "neat"),
  ("Summary", Json.str "solid answer")]

/-- Two sample questions. -/
def sampleQuestions : List (String × Json) :=
  [("Q1", sampleQuestion), ("Q2", sampleQuestion)]

/-- A complete 2-question evaluation with a non-empty OverallSummary. -/
def evCompleteFields : List (String × Json) :=
  [("Questions", Json.obj sampleQuestions),
   ("OverallSummary", Json.arr [Json.str "overall good"])]

/-- The same evaluation with OverallSummary missing. -/
def evNoOverallFields : List (String × Json) :=
  [("Questions", Json.obj sampleQuestions)]

theorem C7_validation_witness :
    validate_evaluation_json (Json.obj evNoOverallFields) =
      (false, ["Missing \x27OverallSummary\x27 in evaluation"]) ∧
    validate_evaluation_json (Json.obj evCompleteFields) = (true, []) :=
  ⟨(C7_validation evNoOverallFields sampleQuestions rfl (by decide)).1 rfl,
   (C7_validation evCompleteFields sampleQuestions rfl (by decide)).2
     [Json.str "overall good"] rfl (by simp)⟩

/-! ### Overall-summary placement (annotate_pdf.py lines 544-596, pipeline.py line 704) -/

/-- pipeline.py line 704: the summary goes onto an existing mostly-empty
page (Case 1) exactly when case_applied == 1 and no blank page was
inserted. -/
def is_existing_page_for_summary (case_applied : ℤ) (insert_blank_page : Bool) : Bool :=
  decide (case_applied = 1) && !insert_blank_page

/-- Where annotate_pdf_with_comments starts the overall summary and whether
it draws the title heading. -/
structure SummaryPlacement where
  bullets_start_y : ℚ
  title_drawn : Bool
  deriving Repr, DecidableEq

/-- The overall-summary layout branch of annotate_pdf_with_comments
(annotate_pdf.py lines 563-596).  current_page_height is the height of the
margin-expanded page; BOTTOM_MARGIN = 72pt.  Case 1 (existing page): bullets
start at 20% of the original page height, no title.  Case 2 (inserted blank
page): title at y = 60 and bullets from y = 60 + 50. -/
def overallSummaryPlacement (is_existing : Bool) (current_page_height : ℚ) :
    SummaryPlacement :=
  let BOTTOM_MARGIN : ℚ := 72
  let original_page_height := current_page_height - BOTTOM_MARGIN
  if is_existing then
    { bullets_start_y := original_page_height * (20/100), title_drawn := false }
  else
    { bullets_start_y := 60 + 50, title_drawn := true }

/-- Modelled from the spec wording of C8, for its refutation: the summary is
placed "after its existing content" when its first line starts at or below
the bottom of that content. -/
def placedAfterContent (p : SummaryPlacement) (content_bottom_y : ℚ) : Prop :=
  content_bottom_y ≤ p.bullets_start_y

/-- C8 (amended): when the blank-page policy selects an existing mostly
empty page (case_applied = 1 with no inserted blank page), the overall
summary is placed on that page at a fixed position 20% down the original
page height — independent of where the existing content ends — and no title
heading is drawn; only when a new blank page was inserted is the summary
placed at the top of that page (title at y = 60, bullets from y = 110) with
a title. -/
theorem C8_summary_placement (case_applied : ℤ) (insert_blank_page : Bool) (h : ℚ) :
    (is_existing_page_for_summary case_applied insert_blank_page = true ↔
      (case_applied = 1 ∧ insert_blank_page = false)) ∧
    overallSummaryPlacement true h =
      { bullets_start_y := (h - 72) * (20/100), title_drawn := false } ∧
    overallSummaryPlacement false h =
      { bullets_start_y := 110, title_drawn := true } := by
  refine ⟨?_, rfl, ?_⟩
  · unfold is_existing_page_for_summary
    rw [Bool.and_eq_true, decide_eq_true_eq, Bool.not_eq_true']
  · unfold overallSummaryPlacement
    norm_num

/-- C8 counterexample: an existing mostly-empty A4 page (margin-expanded
height 842 + 72 = 914pt) whose content reaches 252.6pt from the top — the
page is 70% empty — gets the summary at the fixed y = 168.4pt, above the end
of the existing content rather than after it; the claim that the summary is
placed "directly on that page after its existing content" fails. -/
theorem C8_summary_placement_counterexample :
    (overallSummaryPlacement true 914).bullets_start_y = 1684/10 ∧
    ¬ placedAfterContent (overallSummaryPlacement true 914) (2526/10) ∧
    (overallSummaryPlacement true 914).title_drawn = false := by
  refine ⟨?_, ?_, rfl⟩ <;>
    norm_num [overallSummaryPlacement, placedAfterContent]

/-! ### The pipeline orchestrator (pipeline.py lines 129-297 and 409-855)

run_full_pipeline is embedded as a function of an environment that fixes the
outcome every external call and drawing step would have; the control flow,
the retry loops and the fatality structure follow the source. -/

/-- Outcome of one HTTP attempt as seen by the request code of pipeline.py:
a response with a status code and body, a requests Timeout, or another
RequestException. -/
inductive HttpOutcome where
  | http (code : ℕ) (body : String)
  | timeoutExc (msg : String)
  | requestExc (msg : String)
  deriving Repr

/-- pipeline.py line 36. -/
def EXTERNAL_API_MAX_RETRIES : ℕ := 3

/-- The last_error string recorded for one failed attempt
(pipeline.py lines 228, 234, 239 and 284, 290, 295). -/
def attemptMessage (o : HttpOutcome) : String :=
  match o with
  | .http code body => "HTTP " ++ toString code ++ ": " ++ body.take 500
  | .timeoutExc m => "Timeout: " ++ m
  | .requestExc m => "Request error: " ++ m

/-- Whether an attempt came back 200 OK. -/
def isHttp200 (o : HttpOutcome) : Bool :=
  match o with
  | .http 200 _ => true
  | _ => false

/-- The retry loop of send_evaluation_to_external_api
(pipeline.py lines 197-246): attempts are numbered from 1; the first 200
returns (True, "Success"), and when the bounded attempts are exhausted the
result is (False, last_error). -/
def sendEvaluationLoop (attempts : ℕ → HttpOutcome) :
    Option String → ℕ → ℕ → Bool × Option String
  | last_error, _, 0 => (false, last_error)
  | _, attempt, fuel + 1 =>
    let o := attempts attempt
    if isHttp200 o then (true, some "Success")
    else sendEvaluationLoop attempts (some (attemptMessage o)) (attempt + 1) fuel

/-- send_evaluation_to_external_api (pipeline.py lines 129-246), reduced to
its retry structure. -/
def send_evaluation_to_external_api (attempts : ℕ → HttpOutcome) :
    Bool × Option String :=
  sendEvaluationLoop attempts none 1 EXTERNAL_API_MAX_RETRIES

/-- trigger_process_api (pipeline.py lines 249-297): one GET, success only
on 200. -/
def trigger_process_api (o : HttpOutcome) : Bool × String :=
  if isHttp200 o then (true, "Success") else (false, attemptMessage o)

/-- The terminal statuses of the assistant run
(document_processor.py line 572). -/
def terminalStatuses : List String := ["completed", "failed", "cancelled", "expired"]

/-- The timeout error of the polling loop (document_processor.py line 575,
with max_wait_time = 600). -/
def evalTimeoutMsg : String := "OpenAI Assistant timed out after 600 seconds"

/-- The polling loop of evaluate_text_assistant_ai
(document_processor.py lines 566-601): the elapsed clock starts at 0 and
grows by poll_interval = 3 per iteration, the loop raises the timeout error
as soon as elapsed reaches max_wait_time = 600, a failed status fetch is
retried, and a terminal status ends the loop — with an error unless it is
"completed".  The fuel only bounds the recursion: 201 iterations cover the
whole 600s window, so the fuel-exhausted branch (which repeats the timeout
outcome) is never reached from pollRun. -/
def pollLoop (polls : ℕ → Option String) : ℕ → ℕ → ℕ → Except String String
  | 0, _, _ => .error evalTimeoutMsg
  | fuel + 1, elapsed, idx =>
    if 600 ≤ elapsed then .error evalTimeoutMsg
    else
      match polls idx with
      | none => pollLoop polls fuel (elapsed + 3) (idx + 1)
      | some st =>
        if st ∈ terminalStatuses then
          if st = "completed" then .ok st
          else .error ("Run did not complete successfully (status: " ++ st ++ ")")
        else pollLoop polls fuel (elapsed + 3) (idx + 1)

/-- The whole polling phase. -/
def pollRun (polls : ℕ → Option String) : Except String String :=
  pollLoop polls 201 0 0

/-- The outcomes of every external call and drawing step of one pipeline
run. -/
structure PipelineEnv where
  ocr : Except String String
  evalSetup : Except String Unit
  polls : ℕ → Option String
  evaluation : Json
  annotationOk : Bool
  uploadAnnotatedOk : Bool
  verifiedCopyOutcome : HttpOutcome
  deliveryAttempts : ℕ → HttpOutcome
  triggerOutcome : HttpOutcome

/-- evaluate_text_assistant_ai (document_processor.py lines 488-634) reduced
to its control flow: the thread/run setup, then the polling loop, then the
parsed payload. -/
def evaluate_text_assistant (env : PipelineEnv) : Except String Json :=
  match env.evalSetup with
  | .error e => .error e
  | .ok _ =>
    match pollRun env.polls with
    | .error e => .error e
    | .ok _ => .ok env.evaluation

/-- The result dictionary of run_full_pipeline
(pipeline.py lines 829-843 and 845-855).  process_api_called additionally
records whether trigger_process_api was invoked at all. -/
structure PipelineResult where
  status : String
  error : Option String
  annotated_pdf_path : Option String
  validation_errors : List String
  external_api_success : Bool
  process_api_called : Bool
  process_api_success : Bool
  verified_copy_api_success : Bool
  deriving Repr

/-- The failure result of the outer exception handler
(pipeline.py lines 845-855). -/
def failedResult (e : String) : PipelineResult :=
  { status := "failed", error := some e, annotated_pdf_path := none
    validation_errors := [], external_api_success := false
    process_api_called := false, process_api_success := false
    verified_copy_api_success := false }

/-- run_full_pipeline (pipeline.py lines 409-855): an OCR or evaluation
error reaches the outer handler and fails the run; an annotation exception
is caught (lines 720-722) and only nulls the annotated-PDF path; the
verified-copy update needs the annotated PDF, its upload and a 200; the
delivery retry loop sets external_api_success; the process trigger runs only
after a successful delivery (lines 796-811). -/
def run_full_pipeline (env : PipelineEnv) : PipelineResult :=
  match env.ocr with
  | .error e => failedResult e
  | .ok _ =>
    match evaluate_text_assistant env with
    | .error e => failedResult e
    | .ok evaluation =>
      let vres := validate_evaluation_json evaluation
      let annotated_pdf_path : Option String :=
        if env.annotationOk then some "annotated.pdf" else none
      let verified_copy_api_success :=
        annotated_pdf_path.isSome && env.uploadAnnotatedOk &&
          isHttp200 env.verifiedCopyOutcome
      let deliver := send_evaluation_to_external_api env.deliveryAttempts
      let proc : Bool × Bool :=
        if deliver.1 then (true, (trigger_process_api env.triggerOutcome).1)
        else (false, false)
      { status := "completed", error := none
        annotated_pdf_path := annotated_pdf_path
        validation_errors := vres.2
        external_api_success := deliver.1
        process_api_called := proc.1
        process_api_success := proc.2
        verified_copy_api_success := verified_copy_api_success }

/-! ### Pipeline lemmas -/

theorem pollLoop_timeout (polls : ℕ → Option String)
    (hp : ∀ n st, polls n = some st → st ∉ terminalStatuses) :
    ∀ fuel elapsed idx, pollLoop polls fuel elapsed idx = .error evalTimeoutMsg := by
  intro fuel
  induction fuel with
  | zero => intro _ _; rfl
  | succ f ih =>
    intro elapsed idx
    unfold pollLoop
    by_cases he : 600 ≤ elapsed
    · rw [if_pos he]
    · rw [if_neg he]
      cases hpn : polls idx with
      | none => exact ih _ _
      | some st =>
        show (if st ∈ terminalStatuses then
            if st = "completed" then Except.ok st
            else Except.error ("Run did not complete successfully (status: " ++ st ++ ")")
          else pollLoop polls f (elapsed + 3) (idx + 1)) = Except.error evalTimeoutMsg
        rw [if_neg (hp idx st hpn)]
        exact ih _ _

theorem sendEvaluationLoop_fail (attempts : ℕ → HttpOutcome)
    (hf : ∀ i, isHttp200 (attempts i) = false) :
    ∀ fuel le attempt, (sendEvaluationLoop attempts le attempt fuel).1 = false := by
  intro fuel
  induction fuel with
  | zero => intro _ _; rfl
  | succ f ih =>
    intro le attempt
    unfold sendEvaluationLoop
    simp only [hf attempt, Bool.false_eq_true, if_false]
    exact ih _ _

/-- C4: the fatality partition of run_full_pipeline.  (a) When the
evaluation polling never sees a terminal status, the hard 600s timeout makes
the run fail with the timeout error message.  (b) When the evaluation
succeeds but the annotation step raises, the run still completes with a null
annotated-PDF path.  (c) When the evaluation succeeds but every one of the 3
delivery attempts to the external update endpoint fails, the run still
completes with external_api_success = false. -/
theorem C4_fatality_partition (env : PipelineEnv) :
    ((∀ s, env.ocr = .ok s → env.evalSetup = .ok () →
      (∀ n st, env.polls n = some st → st ∉ terminalStatuses) →
      (run_full_pipeline env).status = "failed" ∧
        (run_full_pipeline env).error = some evalTimeoutMsg)) ∧
    (∀ s j, env.ocr = .ok s → evaluate_text_assistant env = .ok j →
      env.annotationOk = false →
      (run_full_pipeline env).status = "completed" ∧
        (run_full_pipeline env).annotated_pdf_path = none) ∧
    (∀ s j, env.ocr = .ok s → evaluate_text_assistant env = .ok j →
      (∀ i, isHttp200 (env.deliveryAttempts i) = false) →
      (run_full_pipeline env).status = "completed" ∧
        (run_full_pipeline env).external_api_success = false) := by
  refine ⟨?_, ?_, ?_⟩
  · intro s hocr hsetup hpolls
    have hev : evaluate_text_assistant env = .error evalTimeoutMsg := by
      unfold evaluate_text_assistant
      rw [hsetup]
      unfold pollRun
      rw [pollLoop_timeout env.polls hpolls 201 0 0]
    unfold run_full_pipeline
    rw [hocr, hev]
    exact ⟨rfl, rfl⟩
  · intro s j hocr hev hann
    unfold run_full_pipeline
    rw [hocr, hev]
    simp [hann]
  · intro s j hocr hev hfail
    unfold run_full_pipeline
    rw [hocr, hev]
    refine ⟨rfl, ?_⟩
    show (send_evaluation_to_external_api env.deliveryAttempts).1 = false
    unfold send_evaluation_to_external_api
    exact sendEvaluationLoop_fail env.deliveryAttempts hfail _ _ _

/-- An environment in which the evaluation service never reaches a terminal
status. -/
def envTimeout : PipelineEnv :=
  { ocr := .ok "ocr", evalSetup := .ok (), polls := fun _ => some "in_progress"
    evaluation := Json.obj [], annotationOk := true, uploadAnnotatedOk := true
    verifiedCopyOutcome := .http 200 "", deliveryAttempts := fun _ => .http 200 ""
    triggerOutcome := .http 200 "" }

/-- An environment in which the annotation step raises and every delivery
attempt returns HTTP 500. -/
def envDegraded : PipelineEnv :=
  { ocr := .ok "ocr", evalSetup := .ok (), polls := fun _ => some "completed"
    evaluation := Json.obj [], annotationOk := false, uploadAnnotatedOk := true
    verifiedCopyOutcome := .http 200 "", deliveryAttempts := fun _ => .http 500 "oops"
    triggerOutcome := .http 200 "" }

theorem C4_fatality_partition_witness :
    ((run_full_pipeline envTimeout).status = "failed" ∧
      (run_full_pipeline envTimeout).error = some evalTimeoutMsg) ∧
    ((run_full_pipeline envDegraded).status = "completed" ∧
      (run_full_pipeline envDegraded).annotated_pdf_path = none) ∧
    ((run_full_pipeline envDegraded).status = "completed" ∧
      (run_full_pipeline envDegraded).external_api_success = false) :=
  ⟨(C4_fatality_partition envTimeout).1 "ocr" rfl rfl
      (by intro n st h; injection h with h2; rw [← h2]; decide),
   (C4_fatality_partition envDegraded).2.1 "ocr" (Json.obj []) rfl rfl rfl,
   (C4_fatality_partition envDegraded).2.2 "ocr" (Json.obj []) rfl rfl
      (fun i => rfl)⟩

/-- C9: in every run, the downstream process trigger endpoint is called
exactly when the run completed and the delivery of the evaluation to the
external update endpoint succeeded; in particular a delivery failure after
all retries, or any fatal error, means the trigger is never attempted. -/
theorem C9_trigger_iff (env : PipelineEnv) :
    (run_full_pipeline env).process_api_called = true ↔
      ((run_full_pipeline env).status = "completed" ∧
        (run_full_pipeline env).external_api_success = true) := by
  unfold run_full_pipeline
  cases env.ocr with
  | error e => simp [failedResult]
  | ok s =>
    cases evaluate_text_assistant env with
    | error e => simp [failedResult]
    | ok j =>
      by_cases hd : (send_evaluation_to_external_api env.deliveryAttempts).1 = true
      · simp [hd]
      · simp [hd]

/-! ### convert_ocr_result_coords (document_processor.py lines 372-401)

The function walks ocr_result["Pages"] / page["Blocks"] / block["Lines"] and
rewrites, in place, the Coordinates of every line that has a 4-element
coordinate value on a page with matching metadata, keeping the original
under Coordinates_Normalized.  The embedding is pure — containers are
rebuilt instead of mutated — and returns Except, with .error standing for
the TypeError/AttributeError a malformed document raises in Python. -/

/-- len(value): none models TypeError for the unsized shapes. -/
def pyLen (j : Json) : Option ℕ :=
  match j with
  | Json.arr items => some items.length
  | Json.str s => some s.length
  | Json.obj fields => some fields.length
  | _ => none

/-- A coordinate entry as the number Python arithmetic would use: bools are
ints; none models the TypeError that any other shape raises inside
normalized_to_pdf_coords. -/
def jsonToNum (j : Json) : Option ℚ :=
  match j with
  | Json.num q => some q
  | Json.bool b => some (if b then 1 else 0)
  | _ => none

/-- The tuple unpacking x1, y1, x2, y2 = normalized_coords followed by the
numeric uses of the four entries. -/
def coordsToBox : List Json → Option Box4
  | [a, b, c, d] => do
    let x1 ← jsonToNum a
    let y1 ← jsonToNum b
    let x2 ← jsonToNum c
    let y2 ← jsonToNum d
    pure ⟨x1, y1, x2, y2⟩
  | _ => none

/-- A PdfBox as the JSON list normalized_to_pdf_coords returns. -/
def boxToJson (b : Box4) : Json :=
  Json.arr [Json.num b.x1, Json.num b.y1, Json.num b.x2, Json.num b.y2]

/-- Python dict assignment d[k] = v: replace in place when the key exists,
append otherwise. -/
def setKey (fields : List (String × Json)) (k : String) (v : Json) :
    List (String × Json) :=
  match fields with
  | [] => [(k, v)]
  | (k2, v2) :: rest =>
    if k2 = k then (k2, v) :: rest else (k2, v2) :: setKey rest k v

/-- metadata_by_page.get(page_value): the dict comprehension keeps the last
metadata for each page number, Python numeric keys compare by value (bools
are 1 and 0), other hashable values find nothing, and an unhashable value
raises TypeError. -/
def lookupMetadata (pages_metadata : List PageMetadata) (v : Json) :
    Except String (Option PageMetadata) :=
  match v with
  | Json.arr _ => .error "TypeError: unhashable"
  | Json.obj _ => .error "TypeError: unhashable"
  | Json.num q =>
    .ok ((pages_metadata.reverse).find? (fun m => decide ((m.page_number : ℚ) = q)))
  | Json.bool b =>
    .ok ((pages_metadata.reverse).find?
      (fun m => decide ((m.page_number : ℚ) = (if b then 1 else 0))))
  | _ => .ok none

/-- Iterating a Python value: strings iterate to 1-character strings and
dicts to their keys; none models TypeError for non-iterables. -/
def pyIter (j : Json) : Option (List Json) :=
  match j with
  | Json.arr items => some items
  | Json.str s => some (s.data.map (fun c => Json.str (String.mk [c])))
  | Json.obj fields => some (fields.map (fun p => Json.str p.1))
  | _ => none

/-- The loop body for one line (document_processor.py lines 394-399): a line
with a 4-element Coordinates value on this page gets its Coordinates mapped
and the original stored under Coordinates_Normalized; any other line is left
untouched.  Non-numeric 4-element values raise TypeError in Python. -/
def convertLine (metadata : PageMetadata) (line : Json) : Except String Json :=
  match line with
  | Json.obj lfs =>
    match lookupKey lfs "Coordinates" with
    | none => .ok line
    | some v =>
      match pyLen v with
      | none => .error "TypeError: len"
      | some n =>
        if n = 4 then
          match v with
          | Json.arr items =>
            match coordsToBox items with
            | some box =>
              .ok (Json.obj (setKey
                (setKey lfs "Coordinates"
                  (boxToJson (normalized_to_pdf_coords box metadata)))
                "Coordinates_Normalized" v))
            | none => .error "TypeError: arithmetic"
          | _ => .error "TypeError: arithmetic"
        else .ok line
  | Json.arr items =>
    if pyContains (Json.arr items) "Coordinates" then .error "TypeError: getitem"
    else .ok line
  | Json.str s =>
    if pyContains (Json.str s) "Coordinates" then .error "TypeError: getitem"
    else .ok line
  | _ => .error "TypeError: in"

/-- A sequential loop over elements, stopping at the first error as the
Python loop stops at the first raised exception. -/
def exceptMap (f : Json → Except String Json) : List Json → Except String (List Json)
  | [] => .ok []
  | x :: xs =>
    match f x with
    | .error e => .error e
    | .ok y =>
      match exceptMap f xs with
      | .error e => .error e
      | .ok ys => .ok (y :: ys)

/-- The loop over block.get("Lines", []) for one block.  A non-dict block
has no .get and raises AttributeError; a non-list Lines value is iterated
without any line ever being written back. -/
def convertBlock (metadata : PageMetadata) (block : Json) : Except String Json :=
  match block with
  | Json.obj bfs =>
    match lookupKey bfs "Lines" with
    | none => .ok block
    | some (Json.arr ls) =>
      match exceptMap (convertLine metadata) ls with
      | .error e => .error e
      | .ok ls2 => .ok (Json.obj (setKey bfs "Lines" (Json.arr ls2)))
    | some v =>
      match pyIter v with
      | none => .error "TypeError: not iterable"
      | some elems =>
        match exceptMap (convertLine metadata) elems with
        | .error e => .error e
        | .ok _ => .ok block
  | _ => .error "AttributeError: get"

/-- The body for one page (document_processor.py lines 385-399): resolve the
metadata for page.get("Page_Number", 1); a page without metadata is skipped
whole (continue), otherwise every block of page.get("Blocks", []) is
processed. -/
def convertPage (pages_metadata : List PageMetadata) (page : Json) :
    Except String Json :=
  match page with
  | Json.obj pfs =>
    match lookupMetadata pages_metadata ((lookupKey pfs "Page_Number").getD (Json.num 1)) with
    | .error e => .error e
    | .ok none => .ok page
    | .ok (some metadata) =>
      match lookupKey pfs "Blocks" with
      | none => .ok page
      | some (Json.arr bs) =>
        match exceptMap (convertBlock metadata) bs with
        | .error e => .error e
        | .ok bs2 => .ok (Json.obj (setKey pfs "Blocks" (Json.arr bs2)))
      | some v =>
        match pyIter v with
        | none => .error "TypeError: not iterable"
        | some elems =>
          match exceptMap (convertBlock metadata) elems with
          | .error e => .error e
          | .ok _ => .ok page
  | _ => .error "AttributeError: get"

/-- convert_ocr_result_coords (document_processor.py lines 372-401). -/
def convert_ocr_result_coords (ocr_result : Json)
    (pages_metadata : List PageMetadata) : Except String Json :=
  match ocr_result with
  | Json.obj fields =>
    match lookupKey fields "Pages" with
    | none => .ok ocr_result
    | some (Json.arr ps) =>
      match exceptMap (convertPage pages_metadata) ps with
      | .error e => .error e
      | .ok ps2 => .ok (Json.obj (setKey fields "Pages" (Json.arr ps2)))
    | some v =>
      match pyIter v with
      | none => .error "TypeError: not iterable"
      | some elems =>
        match exceptMap (convertPage pages_metadata) elems with
        | .error e => .error e
        | .ok _ => .ok ocr_result
  | Json.arr items =>
    if pyContains (Json.arr items) "Pages" then .error "TypeError: getitem"
    else .ok ocr_result
  | Json.str s =>
    if pyContains (Json.str s) "Pages" then .error "TypeError: getitem"
    else .ok ocr_result
  | _ => .error "TypeError: in"

/-! ### C10 lemmas -/

theorem lookupKey_setKey_ne :
    ∀ (fields : List (String × Json)) (k2 : String) (v : Json) (k : String),
      k ≠ k2 → lookupKey (setKey fields k2 v) k = lookupKey fields k := by
  intro fields
  induction fields with
  | nil =>
    intro k2 v k hk
    unfold setKey lookupKey
    rw [if_neg (fun h => hk h.symm)]
    rfl
  | cons p rest ih =>
    intro k2 v k hk
    obtain ⟨pk, pv⟩ := p
    unfold setKey
    by_cases hpk : pk = k2
    · rw [if_pos hpk]
      unfold lookupKey
      by_cases hk2 : pk = k
      · exact absurd (hk2.symm.trans hpk) hk
      · rw [if_neg hk2, if_neg hk2]
    · rw [if_neg hpk]
      unfold lookupKey
      by_cases hk2 : pk = k
      · rw [if_pos hk2, if_pos hk2]
      · rw [if_neg hk2, if_neg hk2]
        exact ih k2 v k hk

theorem exceptMap_ok (f : Json → Except String Json) :
    ∀ (xs ys : List Json), exceptMap f xs = .ok ys →
      ys.length = xs.length ∧
      ∀ i (h1 : i < xs.length) (h2 : i < ys.length),
        f (xs.get ⟨i, h1⟩) = .ok (ys.get ⟨i, h2⟩) := by
  intro xs
  induction xs with
  | nil =>
    intro ys h
    have h2 : (Except.ok ([] : List Json) : Except String (List Json)) = .ok ys := h
    injection h2 with h3
    subst h3
    exact ⟨rfl, fun i h1 _ => absurd h1 (by simp)⟩
  | cons x xs ih =>
    intro ys h
    unfold exceptMap at h
    cases hx : f x with
    | error e =>
      rw [hx] at h
      have h2 : (Except.error e : Except String (List Json)) = .ok ys := h
      exact Except.noConfusion h2
    | ok y =>
      rw [hx] at h
      cases hxs : exceptMap f xs with
      | error e =>
        rw [hxs] at h
        have h2 : (Except.error e : Except String (List Json)) = .ok ys := h
        exact Except.noConfusion h2
      | ok ys0 =>
        rw [hxs] at h
        have h2 : (Except.ok (y :: ys0) : Except String (List Json)) = .ok ys := h
        injection h2 with h3
        subst h3
        obtain ⟨hlen, hpt⟩ := ih ys0 hxs
        constructor
        · simp [hlen]
        · intro i h1 h2
          cases i with
          | zero => exact hx
          | succ n =>
            exact hpt n (by simpa using h1) (by simpa using h2)

theorem coordsToBox_length {items : List Json} {box : Box4}
    (h : coordsToBox items = some box) : items.length = 4 := by
  cases items with
  | nil => exact Option.noConfusion (show (none : Option Box4) = some box from h)
  | cons a t1 =>
    cases t1 with
    | nil => exact Option.noConfusion (show (none : Option Box4) = some box from h)
    | cons b t2 =>
      cases t2 with
      | nil => exact Option.noConfusion (show (none : Option Box4) = some box from h)
      | cons c t3 =>
        cases t3 with
        | nil => exact Option.noConfusion (show (none : Option Box4) = some box from h)
        | cons d t4 =>
          cases t4 with
          | nil => rfl
          | cons e t5 =>
            exact Option.noConfusion (show (none : Option Box4) = some box from h)

/-- C10: the frame property of convert_ocr_result_coords.  A document
without a Pages key is returned unchanged.  Otherwise only the Pages value
is replaced (every other document key is untouched by the dict assignment),
page count and order are preserved and each output page is the conversion of
the input page at the same index; a page whose page number has no matching
metadata is skipped whole; inside a page with metadata only the Blocks value
changes, blockwise, and inside a block only the Lines value, linewise; a
line without Coordinates, or whose Coordinates value does not have exactly 4
entries, is returned unchanged; a line with a 4-entry numeric Coordinates
array gets exactly its Coordinates replaced by the mapped box and the
original array stored under Coordinates_Normalized, all other line fields
being looked up unchanged. -/
theorem C10_convert_frame :
    (∀ (fields : List (String × Json)) (md : List PageMetadata),
      lookupKey fields "Pages" = none →
        convert_ocr_result_coords (Json.obj fields) md = .ok (Json.obj fields)) ∧
    (∀ (fields : List (String × Json)) (md : List PageMetadata)
        (ps : List Json) (out : Json),
      lookupKey fields "Pages" = some (Json.arr ps) →
      convert_ocr_result_coords (Json.obj fields) md = .ok out →
        ∃ ps2 : List Json, out = Json.obj (setKey fields "Pages" (Json.arr ps2)) ∧
          ps2.length = ps.length ∧
          ∀ i (h1 : i < ps.length) (h2 : i < ps2.length),
            convertPage md (ps.get ⟨i, h1⟩) = .ok (ps2.get ⟨i, h2⟩)) ∧
    (∀ (fields : List (String × Json)) (k2 : String) (v : Json) (k : String),
      k ≠ k2 → lookupKey (setKey fields k2 v) k = lookupKey fields k) ∧
    (∀ (md : List PageMetadata) (pfs : List (String × Json)),
      lookupMetadata md ((lookupKey pfs "Page_Number").getD (Json.num 1)) = .ok none →
        convertPage md (Json.obj pfs) = .ok (Json.obj pfs)) ∧
    (∀ (md : List PageMetadata) (pfs : List (String × Json)) (m : PageMetadata)
        (bs : List Json) (out : Json),
      lookupMetadata md ((lookupKey pfs "Page_Number").getD (Json.num 1)) = .ok (some m) →
      lookupKey pfs "Blocks" = some (Json.arr bs) →
      convertPage md (Json.obj pfs) = .ok out →
        ∃ bs2 : List Json, out = Json.obj (setKey pfs "Blocks" (Json.arr bs2)) ∧
          bs2.length = bs.length ∧
          ∀ i (h1 : i < bs.length) (h2 : i < bs2.length),
            convertBlock m (bs.get ⟨i, h1⟩) = .ok (bs2.get ⟨i, h2⟩)) ∧
    (∀ (m : PageMetadata) (bfs : List (String × Json)) (ls : List Json) (out : Json),
      lookupKey bfs "Lines" = some (Json.arr ls) →
      convertBlock m (Json.obj bfs) = .ok out →
        ∃ ls2 : List Json, out = Json.obj (setKey bfs "Lines" (Json.arr ls2)) ∧
          ls2.length = ls.length ∧
          ∀ i (h1 : i < ls.length) (h2 : i < ls2.length),
            convertLine m (ls.get ⟨i, h1⟩) = .ok (ls2.get ⟨i, h2⟩)) ∧
    (∀ (m : PageMetadata) (lfs : List (String × Json)),
      lookupKey lfs "Coordinates" = none →
        convertLine m (Json.obj lfs) = .ok (Json.obj lfs)) ∧
    (∀ (m : PageMetadata) (lfs : List (String × Json)) (items : List Json),
      lookupKey lfs "Coordinates" = some (Json.arr items) → items.length ≠ 4 →
        convertLine m (Json.obj lfs) = .ok (Json.obj lfs)) ∧
    (∀ (m : PageMetadata) (lfs : List (String × Json)) (items : List Json) (box : Box4),
      lookupKey lfs "Coordinates" = some (Json.arr items) →
      coordsToBox items = some box →
        convertLine m (Json.obj lfs) =
          .ok (Json.obj (setKey
            (setKey lfs "Coordinates" (boxToJson (normalized_to_pdf_coords box m)))
            "Coordinates_Normalized" (Json.arr items)))) := by
  refine ⟨?_, ?_, lookupKey_setKey_ne, ?_, ?_, ?_, ?_, ?_, ?_⟩
  · intro fields md h
    simp only [convert_ocr_result_coords]
    rw [h]
  · intro fields md ps out hq hc
    simp only [convert_ocr_result_coords] at hc
    rw [hq] at hc
    have hc2 : (match exceptMap (convertPage md) ps with
        | Except.error e => (Except.error e : Except String Json)
        | Except.ok ps2 => Except.ok (Json.obj (setKey fields "Pages" (Json.arr ps2)))) =
        Except.ok out := hc
    cases hm : exceptMap (convertPage md) ps with
    | error e =>
      rw [hm] at hc2
      exact Except.noConfusion
        (show (Except.error e : Except String Json) = .ok out from hc2)
    | ok ps2 =>
      rw [hm] at hc2
      have h3 : (Except.ok (Json.obj (setKey fields "Pages" (Json.arr ps2))) :
          Except String Json) = .ok out := hc2
      injection h3 with h4
      obtain ⟨hlen, hpt⟩ := exceptMap_ok (convertPage md) ps ps2 hm
      exact ⟨ps2, h4.symm, hlen, hpt⟩
  · intro md pfs h
    simp only [convertPage]
    rw [h]
  · intro md pfs m bs out hmeta hb hc
    simp only [convertPage] at hc
    rw [hmeta, hb] at hc
    have hc2 : (match exceptMap (convertBlock m) bs with
        | Except.error e => (Except.error e : Except String Json)
        | Except.ok bs2 => Except.ok (Json.obj (setKey pfs "Blocks" (Json.arr bs2)))) =
        Except.ok out := hc
    cases hm : exceptMap (convertBlock m) bs with
    | error e =>
      rw [hm] at hc2
      exact Except.noConfusion
        (show (Except.error e : Except String Json) = .ok out from hc2)
    | ok bs2 =>
      rw [hm] at hc2
      have h3 : (Except.ok (Json.obj (setKey pfs "Blocks" (Json.arr bs2))) :
          Except String Json) = .ok out := hc2
      injection h3 with h4
      obtain ⟨hlen, hpt⟩ := exceptMap_ok (convertBlock m) bs bs2 hm
      exact ⟨bs2, h4.symm, hlen, hpt⟩
  · intro m bfs ls out hl hc
    simp only [convertBlock] at hc
    rw [hl] at hc
    have hc2 : (match exceptMap (convertLine m) ls with
        | Except.error e => (Except.error e : Except String Json)
        | Except.ok ls2 => Except.ok (Json.obj (setKey bfs "Lines" (Json.arr ls2)))) =
        Except.ok out := hc
    cases hm : exceptMap (convertLine m) ls with
    | error e =>
      rw [hm] at hc2
      exact Except.noConfusion
        (show (Except.error e : Except String Json) = .ok out from hc2)
    | ok ls2 =>
      rw [hm] at hc2
      have h3 : (Except.ok (Json.obj (setKey bfs "Lines" (Json.arr ls2))) :
          Except String Json) = .ok out := hc2
      injection h3 with h4
      obtain ⟨hlen, hpt⟩ := exceptMap_ok (convertLine m) ls ls2 hm
      exact ⟨ls2, h4.symm, hlen, hpt⟩
  · intro m lfs h
    simp only [convertLine]
    rw [h]
  · intro m lfs items hl hne
    simp only [convertLine]
    rw [hl]
    simp only [pyLen]
    rw [if_neg hne]
  · intro m lfs items box hl hcb
    have hlen := coordsToBox_length hcb
    simp only [convertLine]
    rw [hl]
    simp only [pyLen]
    rw [if_pos hlen]
    simp only [hcb]

/-- An unconverted A4 page rasterized at 200 dpi. -/
def mdSample : PageMetadata :=
  { page_number := 1, original_width_pt := 595, original_height_pt := 842
    was_converted := false, scale := 1, x_offset_pt := 0, y_offset_pt := 0
    image_width_px := 1654, image_height_px := 2339, dpi := 200 }

/-- A line with an eligible 4-entry normalized coordinate array. -/
def lineEligible : List (String × Json) :=
  [("text", Json.str "hello"),
   ("Coordinates", Json.arr [Json.num (1/10), Json.num (2/10),
     Json.num (3/10), Json.num (4/10)])]

/-- A line whose coordinate array has only 2 entries. -/
def lineShort : List (String × Json) :=
  [("text", Json.str "two"), ("Coordinates", Json.arr [Json.num (1/10), Json.num (2/10)])]

/-- One block holding both lines. -/
def blockSample : List (String × Json) :=
  [("Lines", Json.arr [Json.obj lineEligible, Json.obj lineShort])]

/-- Page 1, which has matching metadata in [mdSample]. -/
def pageSample : List (String × Json) :=
  [("Page_Number", Json.num 1), ("Blocks", Json.arr [Json.obj blockSample])]

/-- Page 7, which has no matching metadata in [mdSample]. -/
def pageNoMeta : List (String × Json) :=
  [("Page_Number", Json.num 7), ("Blocks", Json.arr [Json.obj blockSample])]

/-- A document with one page and one extra document-level key. -/
def docSample : List (String × Json) :=
  [("Language", Json.str "hi"), ("Pages", Json.arr [Json.obj pageSample])]

/-- The expected converted eligible line. -/
def lineEligibleOut : Json :=
  Json.obj (setKey
    (setKey lineEligible "Coordinates"
      (boxToJson (normalized_to_pdf_coords ⟨1/10, 2/10, 3/10, 4/10⟩ mdSample)))
    "Coordinates_Normalized"
    (Json.arr [Json.num (1/10), Json.num (2/10), Json.num (3/10), Json.num (4/10)]))

/-- The expected converted block, page and document. -/
def blockSampleOut : Json :=
  Json.obj (setKey blockSample "Lines" (Json.arr [lineEligibleOut, Json.obj lineShort]))

/-- The expected converted page. -/
def pageSampleOut : Json :=
  Json.obj (setKey pageSample "Blocks" (Json.arr [blockSampleOut]))

/-- The expected converted document. -/
def docSampleOut : Json :=
  Json.obj (setKey docSample "Pages" (Json.arr [pageSampleOut]))

theorem C10_convert_frame_witness :
    (convert_ocr_result_coords (Json.obj [("Language", Json.str "hi")]) [mdSample] =
      .ok (Json.obj [("Language", Json.str "hi")])) ∧
    (∃ ps2 : List Json,
      docSampleOut = Json.obj (setKey docSample "Pages" (Json.arr ps2)) ∧
      ps2.length = [Json.obj pageSample].length ∧
      ∀ i (h1 : i < [Json.obj pageSample].length) (h2 : i < ps2.length),
        convertPage [mdSample] ([Json.obj pageSample].get ⟨i, h1⟩) =
          .ok (ps2.get ⟨i, h2⟩)) ∧
    (lookupKey (setKey docSample "Pages" (Json.arr [pageSampleOut])) "Language" =
      lookupKey docSample "Language") ∧
    (convertPage [mdSample] (Json.obj pageNoMeta) = .ok (Json.obj pageNoMeta)) ∧
    (∃ bs2 : List Json,
      pageSampleOut = Json.obj (setKey pageSample "Blocks" (Json.arr bs2)) ∧
      bs2.length = [Json.obj blockSample].length ∧
      ∀ i (h1 : i < [Json.obj blockSample].length) (h2 : i < bs2.length),
        convertBlock mdSample ([Json.obj blockSample].get ⟨i, h1⟩) =
          .ok (bs2.get ⟨i, h2⟩)) ∧
    (∃ ls2 : List Json,
      blockSampleOut = Json.obj (setKey blockSample "Lines" (Json.arr ls2)) ∧
      ls2.length = [Json.obj lineEligible, Json.obj lineShort].length ∧
      ∀ i (h1 : i < [Json.obj lineEligible, Json.obj lineShort].length)
          (h2 : i < ls2.length),
        convertLine mdSample ([Json.obj lineEligible, Json.obj lineShort].get ⟨i, h1⟩) =
          .ok (ls2.get ⟨i, h2⟩)) ∧
    (convertLine mdSample (Json.obj [("text", Json.str "plain")]) =
      .ok (Json.obj [("text", Json.str "plain")])) ∧
    (convertLine mdSample (Json.obj lineShort) = .ok (Json.obj lineShort)) ∧
    (convertLine mdSample (Json.obj lineEligible) = .ok lineEligibleOut) :=
  ⟨C10_convert_frame.1 [("Language", Json.str "hi")] [mdSample] rfl,
   C10_convert_frame.2.1 docSample [mdSample] [Json.obj pageSample] docSampleOut rfl rfl,
   C10_convert_frame.2.2.1 docSample "Pages" (Json.arr [pageSampleOut]) "Language"
     (by decide),
   C10_convert_frame.2.2.2.1 [mdSample] pageNoMeta rfl,
   C10_convert_frame.2.2.2.2.1 [mdSample] pageSample mdSample [Json.obj blockSample]
     pageSampleOut rfl rfl rfl,
   C10_convert_frame.2.2.2.2.2.1 mdSample blockSample
     [Json.obj lineEligible, Json.obj lineShort] blockSampleOut rfl rfl,
   C10_convert_frame.2.2.2.2.2.2.1 mdSample [("text", Json.str "plain")] rfl,
   C10_convert_frame.2.2.2.2.2.2.2.1 mdSample lineShort
     [Json.num (1/10), Json.num (2/10)] rfl (by decide),
   C10_convert_frame.2.2.2.2.2.2.2.2 mdSample lineEligible
     [Json.num (1/10), Json.num (2/10), Json.num (3/10), Json.num (4/10)]
     ⟨1/10, 2/10, 3/10, 4/10⟩ rfl rfl⟩

end DeepEval
